import Mathlib

/-!
Shallow embedding of the data-generation engine of the
Personalized_Adaptive_Hypothermia repository
(src/utils/data_generator.py, src/utils/feature_engineering.py,
src/server/mock_live_feed.py), together with proofs settling the claims
about it.

Modelling conventions:
* Machine floats are modelled as exact rationals (ℚ).
* numpy's global pseudo-random generator is modelled as an explicit
  stream of rationals together with a position; every call that draws
  from the generator consumes stream values in program order and
  advances the position.  `np.random.uniform(a, b)` is modelled as
  `a + (b - a) * u` on the next stream value `u`, `np.random.normal(mu,
  sigma)` as `mu + sigma * z` on the next stream value `z`, and
  `np.random.choice(['mild','moderate','severe'])` by cutting `[0, 1)`
  into thirds.  Theorems quantify over the stream, so they hold for
  every realisation of the draws.
* `datetime.now()` is modelled as an explicit timestamp argument.
* `math.sin`-style transcendentals (`np.sin(2 * pi * x)`) are modelled
  by an explicit function argument `sin2pi : ℚ → ℚ`, quantified over in
  the theorems.
-/

/-- State of the (global) numpy random generator: a stream of raw draws
and the position of the next draw. -/
structure Rng where
  stream : ℕ → ℚ
  pos : ℕ

/-- Consume one raw draw from the generator. -/
def Rng.next (s : Rng) : ℚ × Rng :=
  (s.stream s.pos, ⟨s.stream, s.pos + 1⟩)

/-- Model of `np.random.uniform(lo, hi)`. -/
def npUniform (lo hi : ℚ) (s : Rng) : ℚ × Rng :=
  let (u, s') := s.next
  (lo + (hi - lo) * u, s')

/-- Model of `np.random.normal(mu, sigma)`: the raw draw is the
standardised noise value. -/
def npNormal (mu sigma : ℚ) (s : Rng) : ℚ × Rng :=
  let (z, s') := s.next
  (mu + sigma * z, s')

/-- Model of `np.random.random()`. -/
def npRandom (s : Rng) : ℚ × Rng :=
  s.next

/-- Model of `np.random.randint(lo, hi)` (value irrelevant to the
claims; it only consumes one draw). -/
def npRandint (lo hi : ℤ) (s : Rng) : ℚ × Rng :=
  let (u, s') := s.next
  (lo + (hi - lo) * u, s')

/-- Model of `np.random.choice(['mild', 'moderate', 'severe'])`:
the unit interval is cut into thirds. -/
def npChoice3 (s : Rng) : String × Rng :=
  let (u, s') := s.next
  (if u < 1/3 then "mild" else if u < 2/3 then "moderate" else "severe", s')

/-- Model of `np.clip(x, lo, hi)`; numpy documents it as
`np.minimum(hi, np.maximum(x, lo))`, so when `lo > hi` the result is
`hi`. -/
def npClip (x lo hi : ℚ) : ℚ :=
  min hi (max x lo)

/-- Model of Python `int()` applied to a rational: truncation toward
zero. -/
def pyInt (q : ℚ) : ℤ :=
  if q < 0 then -⌊-q⌋ else ⌊q⌋

/-- Model of Python `%` on (non-negative) numbers: `a - b * ⌊a / b⌋`. -/
def pymod (a b : ℚ) : ℚ :=
  a - b * ⌊a / b⌋

/-- Length of `np.arange(0, stop, step)` for natural `stop`, `step`
(`⌈stop / step⌉` when `step > 0`). -/
def arangeLen (stop step : ℕ) : ℕ :=
  (stop + step - 1) / step

/-- A stateful loop over a list of indices, threading the random
generator exactly as the Python `for` loops thread numpy's global
generator. -/
def mapRng {α : Type} (f : ℕ → Rng → α × Rng) : List ℕ → Rng → List α × Rng
  | [], s => ([], s)
  | i :: is, s =>
    let (v, s') := f i s
    let (vs, s'') := mapRng f is s'
    (v :: vs, s'')

theorem mapRng_length {α : Type} (f : ℕ → Rng → α × Rng) :
    ∀ (l : List ℕ) (s : Rng), (mapRng f l s).1.length = l.length := by
  intro l
  induction l with
  | nil => intro s; rfl
  | cons i is ih =>
    intro s
    simp only [mapRng]
    exact congrArg Nat.succ (ih _)

theorem mapRng_mem {α : Type} (f : ℕ → Rng → α × Rng) :
    ∀ (l : List ℕ) (s : Rng) (x : α), x ∈ (mapRng f l s).1 →
      ∃ i ∈ l, ∃ s' : Rng, x = (f i s').1 := by
  intro l
  induction l with
  | nil => intro s x hx; simp [mapRng] at hx
  | cons i is ih =>
    intro s x hx
    simp only [mapRng, List.mem_cons] at hx
    rcases hx with hx | hx
    · exact ⟨i, List.mem_cons_self i is, s, hx⟩
    · rcases ih _ _ hx with ⟨j, hj, s', hs'⟩
      exact ⟨j, List.mem_cons_of_mem _ hj, s', hs'⟩

/-- Static baseline parameters drawn once per patient
(`generate_baseline_parameters`, src/utils/data_generator.py:20-47). -/
structure PatientBaseline where
  patient_id : String
  birth_weight_kg : ℚ
  gestational_age_weeks : ℚ
  birth_hour : ℚ
  hie_severity : String
  baseline_heart_rate : ℚ
  baseline_resp_rate : ℚ
  baseline_systolic_bp : ℚ
  baseline_diastolic_bp : ℚ
  baseline_oxygen_sat : ℚ
  baseline_rectal_temp : ℚ
  baseline_core_temp : ℚ
  seizure_risk_factor : ℚ
deriving DecidableEq

/-- Lookup of the dict literal
`{'mild': 0.1, 'moderate': 0.4, 'severe': 0.7}` used for the
seizure-risk factor. -/
def severityRisk (sev : String) : ℚ :=
  if sev = "mild" then 1/10 else if sev = "moderate" then 4/10 else 7/10

/-- Embedding of `generate_baseline_parameters`: twelve draws in the
evaluation order of the Python dict literal; note that the
`seizure_risk_factor` entry performs a second, independent
`np.random.choice` over the severities. -/
def generate_baseline_parameters (pid : String) (s : Rng) :
    PatientBaseline × Rng :=
  let (bw, s1) := npUniform (5/2) (9/2) s
  let (ga, s2) := npUniform 35 42 s1
  let (bh, s3) := npRandint 0 24 s2
  let (sev, s4) := npChoice3 s3
  let (hr, s5) := npUniform 120 160 s4
  let (rr, s6) := npUniform 40 60 s5
  let (sbp, s7) := npUniform 50 70 s6
  let (dbp, s8) := npUniform 30 45 s7
  let (o2, s9) := npUniform 95 100 s8
  let (rt, s10) := npUniform (368/10) (374/10) s9
  let (ct, s11) := npUniform (365/10) (373/10) s10
  let (sev2, s12) := npChoice3 s11
  (⟨pid, bw, ga, bh, sev, hr, rr, sbp, dbp, o2, rt, ct, severityRisk sev2⟩, s12)

/-- The severity-dependent protocol fields drawn inside
`generate_cooling_protocol` before the dict lookup. -/
structure ProtocolCore where
  target_temp : ℚ
  duration_hours : ℕ
  cooling_rate : ℚ
  rewarming_rate : ℚ
deriving DecidableEq

/-- Individualised cooling protocol
(`generate_cooling_protocol`, src/utils/data_generator.py:49-77). -/
structure CoolingProtocol where
  target_temp : ℚ
  duration_hours : ℕ
  cooling_rate : ℚ
  rewarming_rate : ℚ
  baseline_temp : ℚ
  start_time : ℚ
deriving DecidableEq

/-- The Python dict literal `protocols` evaluates the draws for all
three severities (nine draws) before the severity lookup selects one. -/
def protocolDraws (sev : String) (s : Rng) : ProtocolCore × Rng :=
  let (mt, s1) := npUniform (325/10) (335/10) s
  let (mc, s2) := npUniform (1/10) (2/10) s1
  let (mr, s3) := npUniform (5/100) (1/10) s2
  let (ot, s4) := npUniform (330/10) (335/10) s3
  let (oc, s5) := npUniform (15/100) (25/100) s4
  let (orr, s6) := npUniform (5/100) (1/10) s5
  let (st, s7) := npUniform (320/10) (335/10) s6
  let (sc, s8) := npUniform (2/10) (3/10) s7
  let (sr, s9) := npUniform (5/100) (8/100) s8
  (if sev = "mild" then ⟨mt, 48, mc, mr⟩
   else if sev = "moderate" then ⟨ot, 72, oc, orr⟩
   else ⟨st, 72, sc, sr⟩, s9)

/-- Embedding of `generate_cooling_protocol`; `now` models
`datetime.now()`. -/
def generate_cooling_protocol (sev : String) (baseline_temp now : ℚ)
    (s : Rng) : CoolingProtocol × Rng :=
  let (core, s') := protocolDraws sev s
  (⟨core.target_temp, core.duration_hours, core.cooling_rate,
    core.rewarming_rate, baseline_temp, now⟩, s')

/-- One iteration of the temperature loop
(src/utils/data_generator.py:114-126).  `steps` is
`cooling_phase_steps`, `ts` the time step in minutes; each iteration
consumes exactly one normal draw and clips the result. -/
def tempStep (baseline_temp target_temp cooling_rate : ℚ) (steps : ℤ)
    (ts : ℕ) (i : ℕ) (s : Rng) : ℚ × Rng :=
  if (i : ℤ) < steps then
    let (z, s') := npNormal 0 (5/100) s
    (npClip (baseline_temp - cooling_rate / 60 * (i * ts : ℕ) + z)
      (target_temp - 1/2) (baseline_temp + 1/2), s')
  else
    let (z, s') := npNormal 0 (15/100) s
    (npClip (target_temp + z) (target_temp - 1/2) (baseline_temp + 1/2), s')

/-- Embedding of `simulate_rectal_temperature`
(src/utils/data_generator.py:79-128).  The returned list holds the
temperature samples on the `arange(0, duration_minutes, time_step)`
grid; `rewarming_rate` is accepted but never used, exactly as in the
source. -/
def simulate_rectal_temperature (baseline_temp target_temp cooling_rate
    rewarming_rate : ℚ) (duration_minutes time_step : ℕ) (s : Rng) :
    List ℚ × Rng :=
  let cooling_phase_minutes :=
    |baseline_temp - target_temp| / (cooling_rate / 60)
  let cooling_phase_steps := pyInt (cooling_phase_minutes / (time_step : ℚ))
  mapRng (tempStep baseline_temp target_temp cooling_rate
      cooling_phase_steps time_step)
    (List.range (arangeLen duration_minutes time_step)) s

/-- One iteration of the heart-rate loop
(src/utils/data_generator.py:149-158): one normal draw, a sinusoidal
stress term, then clipping to `[80, 180]`. -/
def hrStep (baseline_hr hypothermia_effect stress_level : ℚ)
    (sin2pi : ℚ → ℚ) (ts : ℕ) (i : ℕ) (s : Rng) : ℚ × Rng :=
  let (noise, s') := npNormal 0 5 s
  let stress := stress_level * sin2pi ((i : ℚ) / (60 * 60 / (ts : ℚ)))
  (npClip (baseline_hr * hypothermia_effect + noise + stress) 80 180, s')

/-- Embedding of `generate_heart_rate_data`
(src/utils/data_generator.py:130-160).  `sin2pi x` models
`np.sin(2 * np.pi * x)`. -/
def generate_heart_rate_data (baseline_hr : ℚ)
    (duration_minutes time_step : ℕ) (stress_level : ℚ)
    (sin2pi : ℚ → ℚ) (s : Rng) : List ℚ × Rng :=
  let (eff, s1) := npUniform (85/100) (95/100) s
  mapRng (hrStep baseline_hr eff stress_level sin2pi time_step)
    (List.range (arangeLen duration_minutes time_step)) s1

/-- One iteration of the blood-pressure loop
(src/utils/data_generator.py:179-187): sinusoidal trend, two normal
draws, clipping to `[40, 80]` and `[20, 50]`. -/
def bpStep (baseline_systolic baseline_diastolic : ℚ) (sin2pi : ℚ → ℚ)
    (ts : ℕ) (i : ℕ) (s : Rng) : (ℚ × ℚ) × Rng :=
  let trend := 95/100 + 1/10 * sin2pi ((i : ℚ) / (120 * 60 / (ts : ℚ)))
  let (z1, s1) := npNormal 0 3 s
  let (z2, s2) := npNormal 0 2 s1
  ((npClip (baseline_systolic * trend + z1) 40 80,
    npClip (baseline_diastolic * trend + z2) 20 50), s2)

/-- Embedding of `generate_blood_pressure_data`
(src/utils/data_generator.py:162-189); the pair holds
(systolic, diastolic) samples. -/
def generate_blood_pressure_data (baseline_systolic baseline_diastolic : ℚ)
    (duration_minutes time_step : ℕ) (sin2pi : ℚ → ℚ) (s : Rng) :
    List (ℚ × ℚ) × Rng :=
  mapRng (bpStep baseline_systolic baseline_diastolic sin2pi time_step)
    (List.range (arangeLen duration_minutes time_step)) s

/-- The desaturation-dip condition of
src/utils/data_generator.py:211, literally
`i % (20 * 60 / time_step) < 10 * 60 / time_step` (true division, so on
the 5-minute grid the cycle spans 240 samples). -/
def dipCond (ts : ℕ) (i : ℕ) : Prop :=
  pymod (i : ℚ) (20 * 60 / (ts : ℚ)) < 10 * 60 / (ts : ℚ)

instance (ts i : ℕ) : Decidable (dipCond ts i) := by
  unfold dipCond; infer_instance

/-- One iteration of the SpO2 loop
(src/utils/data_generator.py:206-216): an optional uniform dip draw
while in respiratory distress, one normal draw, clipping to
`[92, 100]`. -/
def spo2Step (baseline_spo2 : ℚ) (respiratory_distress : Bool) (ts : ℕ)
    (i : ℕ) (s : Rng) : ℚ × Rng :=
  let (base, s1) :=
    if respiratory_distress ∧ dipCond ts i then
      let (d, s') := npUniform 2 5 s
      (baseline_spo2 - d, s')
    else (baseline_spo2, s)
  let (z, s2) := npNormal 0 (1/2) s1
  (npClip (base + z) 92 100, s2)

/-- Embedding of `generate_oxygen_saturation_data`
(src/utils/data_generator.py:191-218). -/
def generate_oxygen_saturation_data (baseline_spo2 : ℚ)
    (duration_minutes time_step : ℕ) (respiratory_distress : Bool)
    (s : Rng) : List ℚ × Rng :=
  mapRng (spo2Step baseline_spo2 respiratory_distress time_step)
    (List.range (arangeLen duration_minutes time_step)) s

/-- Loop state of `generate_eeg_data`: the `seizure_start_minute`
marker and the random generator. -/
structure EegState where
  start : Option ℚ
  rng : Rng

/-- One EEG sample: delta, theta and alpha band powers plus the
`seizure_active` flag of that iteration. -/
structure EegSample where
  delta : ℚ
  theta : ℚ
  alpha : ℚ
  active : Bool
deriving DecidableEq

/-- One iteration of the EEG loop
(src/utils/data_generator.py:242-266).  `totalSeconds` is
`duration_minutes * 60`; a Bernoulli trial is drawn only while no onset
marker is set, an active onset persists while
`current_minute < start + 2`, and the band powers are drawn from the
ictal ranges iff the seizure is active. -/
def eegStep (seizure_probability totalSeconds : ℚ) (ts : ℕ) (i : ℕ)
    (st : EegState) : EegSample × EegState :=
  let current_minute : ℚ := (i * ts : ℕ) / 60
  let (start1, s1) :=
    match st.start with
    | none =>
      let (u, s') := npRandom st.rng
      (if u < seizure_probability / totalSeconds then some current_minute
       else none, s')
    | some v => (some v, st.rng)
  let (active, start2) :=
    match start1 with
    | some sm =>
      if current_minute < sm + 2 then (true, some sm) else (false, none)
    | none => (false, none)
  let (d, s2) := if active then npUniform 50 150 s1 else npUniform 10 40 s1
  let (t, s3) := if active then npUniform 100 250 s2 else npUniform 5 20 s2
  let (a, s4) := if active then npUniform 200 400 s3 else npUniform 2 10 s3
  (⟨d, t, a, active⟩, ⟨start2, s4⟩)

/-- The EEG loop over a list of sample indices, threading the onset
marker and the generator. -/
def eegRun (seizure_probability totalSeconds : ℚ) (ts : ℕ) :
    List ℕ → EegState → List EegSample × EegState
  | [], st => ([], st)
  | i :: is, st =>
    let (v, st') := eegStep seizure_probability totalSeconds ts i st
    let (vs, st'') := eegRun seizure_probability totalSeconds ts is st'
    (v :: vs, st'')

/-- Embedding of `generate_eeg_data`
(src/utils/data_generator.py:220-268); `start0` models the
`seizure_start_minute` argument (default `None`). -/
def generate_eeg_data (duration_minutes : ℕ) (time_step : ℕ)
    (seizure_probability : ℚ) (start0 : Option ℚ) (s : Rng) :
    List EegSample × EegState :=
  eegRun seizure_probability ((duration_minutes : ℚ) * 60) time_step
    (List.range (arangeLen (duration_minutes * 60) time_step)) ⟨start0, s⟩

/-- Result of `generate_blood_gas_data`: the 4-hour time grid (in
hours) and the four measurement series.  As in the source, the time
grid has `⌈duration / step⌉` entries while the value arrays have
`duration // step` entries (they agree when `step` divides
`duration`). -/
structure BloodGas where
  times : List ℚ
  pH : List ℚ
  pCO2 : List ℚ
  pO2 : List ℚ
  lactate : List ℚ
deriving DecidableEq

/-- Severity-dependent blood-gas baselines
(src/utils/data_generator.py:291-295), as (pH, pCO2, pO2, lactate). -/
def bgBaseline (sev : String) : ℚ × ℚ × ℚ × ℚ :=
  if sev = "mild" then (735/100, 45, 85, 2)
  else if sev = "moderate" then (730/100, 48, 75, 4)
  else (725/100, 50, 65, 8)

/-- One iteration of the blood-gas loop
(src/utils/data_generator.py:299-306): four uniform draws with a
linearly shrinking improvement factor, and geometric lactate decay. -/
def bgStep (sev : String) (i : ℕ) (s : Rng) : (ℚ × ℚ × ℚ × ℚ) × Rng :=
  let b := bgBaseline sev
  let improvement_factor : ℚ := 1 - 1/100 * i
  let (u1, s1) := npUniform (-5/100) (1/10) s
  let (u2, s2) := npUniform (-5) 3 s1
  let (u3, s3) := npUniform (-10) 15 s2
  let (u4, s4) := npUniform (-1/2) (1/2) s3
  ((b.1 + u1 * improvement_factor,
    b.2.1 + u2 * improvement_factor,
    b.2.2.1 + u3 * improvement_factor,
    b.2.2.2 * (9/10) ^ i + u4), s4)

/-- Embedding of `generate_blood_gas_data`
(src/utils/data_generator.py:270-308). -/
def generate_blood_gas_data (duration_hours time_step_hours : ℕ)
    (hie_severity : String) (s : Rng) : BloodGas × Rng :=
  let num_points := duration_hours / time_step_hours
  let (vals, s') :=
    mapRng (bgStep hie_severity) (List.range num_points) s
  (⟨(List.range (arangeLen duration_hours time_step_hours)).map
      (fun k => ((k * time_step_hours : ℕ) : ℚ)),
    vals.map (fun v => v.1),
    vals.map (fun v => v.2.1),
    vals.map (fun v => v.2.2.1),
    vals.map (fun v => v.2.2.2)⟩, s')

/-- A pandas cell: a number, a string, or NaN (the explicit missing
value produced by an unmatched left join). -/
inductive Cell where
  | num : ℚ → Cell
  | str : String → Cell
  | nan : Cell
deriving DecidableEq

/-- A pandas DataFrame: named columns in order, each a list of cells
(all of equal length for a well-formed frame). -/
abbrev DataFrame := List (String × List Cell)

/-- Column access by name (`df[name]`). -/
def getCol (df : DataFrame) (name : String) : Option (List Cell) :=
  (df.find? (fun c => decide (c.1 = name))).map (fun c => c.2)

/-- Kernel of the left join of src/utils/data_generator.py:394 for a
single vitals row: scan the (unique-keyed) blood-gas rows for an
exactly matching timestamp; an unmatched row yields NaN. -/
def lookupRows (q : ℚ) : List (ℚ × ℚ) → Cell
  | [] => Cell.nan
  | (t, v) :: rest => if t = q then Cell.num v else lookupRows q rest

/-- Forward fill with an explicit carried value
(`fillna(method='ffill')`): NaN cells take the most recent non-NaN
value above them, and cells before the first non-NaN value stay NaN. -/
def ffillAux (last : Cell) : List Cell → List Cell
  | [] => []
  | c :: cs =>
    match c with
    | Cell.nan => last :: ffillAux last cs
    | v => v :: ffillAux v cs

/-- Forward fill of one column, starting with nothing to carry. -/
def ffill (l : List Cell) : List Cell :=
  ffillAux Cell.nan l

/-- All intermediate products of one `generate_complete_patient_dataset`
run (the local variables of src/utils/data_generator.py:310-404),
named so that theorems can refer to them. -/
structure PatientParts where
  baseline : PatientBaseline
  protocol : CoolingProtocol
  rectal_temps : List ℚ
  heart_rates : List ℚ
  bps : List (ℚ × ℚ)
  spo2 : List ℚ
  abg : BloodGas
  rngEnd : Rng

/-- The generation pass of `generate_complete_patient_dataset`, calling
the synthesizers in source order on one threaded generator.  As at
src/utils/data_generator.py:335, the protocol cooling and rewarming
rates are divided by 60 before being handed to
`simulate_rectal_temperature`. -/
def completeParts (pid : String) (duration_hours time_step_minutes : ℕ)
    (sin2pi : ℚ → ℚ) (now : ℚ) (s : Rng) : PatientParts :=
  let (bp, s1) := generate_baseline_parameters pid s
  let (protocol, s2) :=
    generate_cooling_protocol bp.hie_severity bp.baseline_rectal_temp now s1
  let duration_minutes := duration_hours * 60
  let (temps, s3) := simulate_rectal_temperature protocol.baseline_temp
    protocol.target_temp (protocol.cooling_rate / 60)
    (protocol.rewarming_rate / 60) duration_minutes time_step_minutes s2
  let (hrs, s4) := generate_heart_rate_data bp.baseline_heart_rate
    duration_minutes time_step_minutes (1/2) sin2pi s3
  let (bps, s5) := generate_blood_pressure_data bp.baseline_systolic_bp
    bp.baseline_diastolic_bp duration_minutes time_step_minutes sin2pi s4
  let (sp, s6) := generate_oxygen_saturation_data bp.baseline_oxygen_sat
    duration_minutes time_step_minutes
    (decide (bp.hie_severity = "severe")) s5
  let (abg, s7) := generate_blood_gas_data duration_hours 4
    bp.hie_severity s6
  ⟨bp, protocol, temps, hrs, bps, sp, abg, s7⟩

/-- Number of vitals rows: the length of
`arange(0, duration_hours * 60, time_step_minutes)`. -/
def vitalsLen (duration_hours time_step_minutes : ℕ) : ℕ :=
  arangeLen (duration_hours * 60) time_step_minutes

/-- One blood-gas-derived column before forward filling: each vitals
row keeps the sample whose 4-hour timestamp equals the row's
`time_hours`, and NaN otherwise (the left join of
src/utils/data_generator.py:394 with unique right keys). -/
def mergedCol (abg : BloodGas) (vals : List ℚ)
    (duration_hours time_step_minutes : ℕ) : List Cell :=
  (List.range (vitalsLen duration_hours time_step_minutes)).map
    (fun i => lookupRows (((i * time_step_minutes : ℕ) : ℚ) / 60)
      (abg.times.zip vals))

/-- The assembled patient DataFrame in pandas column order.  Because
`df` and `abg_df` both own a column named `time_hours` and the merge
uses distinct `left_on`/`right_on` keys, pandas suffixes the
overlapping name into `time_hours_x` (vitals grid) and `time_hours_y`
(native blood-gas timestamps); only the four measurement columns are
forward filled, and the helper key `time_hours_abg` is dropped. -/
def assembleDf (pid : String) (duration_hours time_step_minutes : ℕ)
    (P : PatientParts) : DataFrame :=
  let n := vitalsLen duration_hours time_step_minutes
  [("patient_id", List.replicate n (Cell.str pid)),
   ("time_minutes", (List.range n).map
      (fun i => Cell.num ((i * time_step_minutes : ℕ) : ℚ))),
   ("time_hours_x", (List.range n).map
      (fun i => Cell.num (((i * time_step_minutes : ℕ) : ℚ) / 60))),
   ("rectal_temperature_c", P.rectal_temps.map Cell.num),
   ("heart_rate_bpm", P.heart_rates.map Cell.num),
   ("systolic_bp_mmhg", P.bps.map (fun p => Cell.num p.1)),
   ("diastolic_bp_mmhg", P.bps.map (fun p => Cell.num p.2)),
   ("oxygen_saturation_percent", P.spo2.map Cell.num),
   ("hie_severity", List.replicate n (Cell.str P.baseline.hie_severity)),
   ("target_temp_c", List.replicate n (Cell.num P.protocol.target_temp)),
   ("time_hours_y", mergedCol P.abg P.abg.times
      duration_hours time_step_minutes),
   ("pH", ffill (mergedCol P.abg P.abg.pH
      duration_hours time_step_minutes)),
   ("pCO2_mmhg", ffill (mergedCol P.abg P.abg.pCO2
      duration_hours time_step_minutes)),
   ("pO2_mmhg", ffill (mergedCol P.abg P.abg.pO2
      duration_hours time_step_minutes)),
   ("lactate_mmol", ffill (mergedCol P.abg P.abg.lactate
      duration_hours time_step_minutes)),
   ("baseline_birth_weight_kg",
      List.replicate n (Cell.num P.baseline.birth_weight_kg)),
   ("baseline_gestational_age_weeks",
      List.replicate n (Cell.num P.baseline.gestational_age_weeks)),
   ("baseline_birth_hour",
      List.replicate n (Cell.num P.baseline.birth_hour)),
   ("baseline_hie_severity",
      List.replicate n (Cell.str P.baseline.hie_severity)),
   ("baseline_baseline_heart_rate",
      List.replicate n (Cell.num P.baseline.baseline_heart_rate)),
   ("baseline_baseline_resp_rate",
      List.replicate n (Cell.num P.baseline.baseline_resp_rate)),
   ("baseline_baseline_systolic_bp",
      List.replicate n (Cell.num P.baseline.baseline_systolic_bp)),
   ("baseline_baseline_diastolic_bp",
      List.replicate n (Cell.num P.baseline.baseline_diastolic_bp)),
   ("baseline_baseline_oxygen_sat",
      List.replicate n (Cell.num P.baseline.baseline_oxygen_sat)),
   ("baseline_baseline_rectal_temp",
      List.replicate n (Cell.num P.baseline.baseline_rectal_temp)),
   ("baseline_baseline_core_temp",
      List.replicate n (Cell.num P.baseline.baseline_core_temp)),
   ("baseline_seizure_risk_factor",
      List.replicate n (Cell.num P.baseline.seizure_risk_factor))]

/-- Embedding of `generate_complete_patient_dataset`
(src/utils/data_generator.py:310-404). -/
def generate_complete_patient_dataset (pid : String)
    (duration_hours time_step_minutes : ℕ) (sin2pi : ℚ → ℚ) (now : ℚ)
    (s : Rng) : DataFrame × Rng :=
  let P := completeParts pid duration_hours time_step_minutes sin2pi now s
  (assembleDf pid duration_hours time_step_minutes P, P.rngEnd)

/-- Zero padding of `f'{n:04d}'`. -/
def pad4 (n : ℕ) : String :=
  String.mk (List.replicate (4 - (toString n).length) '0') ++ toString n

/-- The batch loop's patient identifier `f'PATIENT_{i+1:04d}'`. -/
def patientOrdinalId (i : ℕ) : String :=
  "PATIENT_" ++ pad4 (i + 1)

/-- The batch loop of `generate_batch_dataset`
(src/utils/data_generator.py:413-422): one patient dataset per
ordinal, on the shared generator, at the default 5-minute cadence;
`nows i` models the wall-clock time of patient `i`'s protocol. -/
def batchAux (duration_hours : ℕ) (sin2pi : ℚ → ℚ) (nows : ℕ → ℚ) :
    List ℕ → Rng → List DataFrame × Rng
  | [], s => ([], s)
  | i :: is, s =>
    let (df, s') := generate_complete_patient_dataset
      (patientOrdinalId i) duration_hours 5 sin2pi (nows i) s
    let (dfs, s'') := batchAux duration_hours sin2pi nows is s'
    (df :: dfs, s'')

/-- Concatenation of two equal-schema patient frames
(`pd.concat(..., ignore_index=True)` aligns the shared columns). -/
def concat2 (a b : DataFrame) : DataFrame :=
  List.zipWith (fun ca cb => (ca.1, ca.2 ++ cb.2)) a b

/-- Concatenation of the per-patient frames in generation order. -/
def concatDfs : List DataFrame → DataFrame
  | [] => []
  | d :: ds => ds.foldl concat2 d

/-- Embedding of `generate_batch_dataset`
(src/utils/data_generator.py:406-425). -/
def generate_batch_dataset (g : Rng) (sin2pi : ℚ → ℚ) (nows : ℕ → ℚ)
    (num_patients duration_hours : ℕ) : DataFrame × Rng :=
  let (dfs, s') := batchAux duration_hours sin2pi nows
    (List.range num_patients) g
  (concatDfs dfs, s')

/-- Model of `InfantPhysiologicalDataGenerator.__init__`
(src/utils/data_generator.py:15-18): `np.random.seed(seed)` resets the
global generator to the stream determined by the seed.  `family` is
the (fixed, implementation-defined) map from seeds to numpy's raw draw
streams; constructing two generators from equal seeds yields equal
states. -/
def mkGenerator (family : ℕ → ℕ → ℚ) (seed : ℕ) : Rng :=
  ⟨family seed, 0⟩

/-- Embedding of `build_feature_matrix`
(src/utils/feature_engineering.py:132-141): the loop raises `KeyError`
at the first required column that is absent; the error payload lists
the column names the raised message names (the source f-string names
exactly one).  On success the selected columns are returned in order. -/
def build_feature_matrix (df : List (String × List ℚ))
    (feature_cols : List String) :
    Except (List String) (List (List ℚ)) :=
  match feature_cols.find? (fun c => !(df.any (fun col => col.1 == c))) with
  | some c => Except.error [c]
  | none => Except.ok (feature_cols.map (fun c =>
      ((df.find? (fun col => col.1 == c)).map (fun col => col.2)).getD []))

/-- Embedding of `compute_event_probability`
(src/server/mock_live_feed.py:82-89): a missing model or any exception
from `row[cols]` (a required feature absent from the row) is swallowed
and yields `None`; `predProb` abstracts the model's probability when
all features are present. -/
def compute_event_probability (modelPresent : Bool)
    (rowCols cols : List String) (predProb : ℚ) : Option ℚ :=
  if modelPresent = false then none
  else if cols.all (fun c => rowCols.contains c) then some predProb
  else none

/-- Embedding of `categorize` (src/server/mock_live_feed.py:66-71). -/
def categorize (prob high medium : ℚ) : String :=
  if high ≤ prob then "HIGH" else if medium ≤ prob then "MED" else "LOW"

/-- Python `prob or 0.0` on an optional probability. -/
def orZero (p : Option ℚ) : ℚ :=
  p.getD 0

/-- The risk levels computed by `build_scorecard`
(src/server/mock_live_feed.py:92-107) with the thresholds of
`CDS_CONFIG`; every `None` probability is replaced by `0.0` before
categorisation. -/
def build_scorecard (rowCols prognosis_features : List String)
    (seizureM sepsisM cardiacM renalM : Bool)
    (pSeiz pSep pCar pRen pProg : ℚ) : List (String × String) :=
  [("seizure", categorize (orZero (compute_event_probability seizureM
      rowCols prognosis_features pSeiz)) (7/10) (4/10)),
   ("sepsis", categorize (orZero (compute_event_probability sepsisM
      rowCols prognosis_features pSep)) (65/100) (35/100)),
   ("cardiac", categorize (orZero (compute_event_probability cardiacM
      rowCols prognosis_features pCar)) (6/10) (3/10)),
   ("renal", categorize (orZero (compute_event_probability renalM
      rowCols prognosis_features pRen)) (6/10) (3/10)),
   ("prognosis", categorize (orZero (compute_event_probability true
      rowCols prognosis_features pProg)) (65/100) (4/10))]

/-- A concrete all-zero draw stream, used as explicit input in
counterexamples and evaluations. -/
def zeroStream : Rng :=
  ⟨fun _ => 0, 0⟩

theorem npClip_bounds (x lo hi : ℚ) (h : lo ≤ hi) :
    lo ≤ npClip x lo hi ∧ npClip x lo hi ≤ hi := by
  constructor
  · exact le_min h (le_max_right x lo)
  · exact min_le_left hi (max x lo)

theorem tempStep_shape (bt tt cr : ℚ) (steps : ℤ) (ts i : ℕ) (s : Rng) :
    ∃ y, (tempStep bt tt cr steps ts i s).1 =
      npClip y (tt - 1/2) (bt + 1/2) := by
  unfold tempStep npNormal Rng.next
  split <;> exact ⟨_, rfl⟩

theorem hrStep_shape (b e st : ℚ) (sp : ℚ → ℚ) (ts i : ℕ) (s : Rng) :
    ∃ y, (hrStep b e st sp ts i s).1 = npClip y 80 180 :=
  ⟨_, rfl⟩

theorem bpStep_shape (bs bd : ℚ) (sp : ℚ → ℚ) (ts i : ℕ) (s : Rng) :
    ∃ y z, (bpStep bs bd sp ts i s).1 =
      (npClip y 40 80, npClip z 20 50) :=
  ⟨_, _, rfl⟩

theorem spo2Step_shape (b : ℚ) (rd : Bool) (ts i : ℕ) (s : Rng) :
    ∃ y, (spo2Step b rd ts i s).1 = npClip y 92 100 := by
  unfold spo2Step npUniform npNormal Rng.next
  split <;> exact ⟨_, rfl⟩

/-- C1 counterexample: with baseline 30 °C and target 32 °C (so that
`target - 0.5 > baseline + 0.5`), cooling rate 24, duration 5 and time
step 5, the single sample produced by `simulate_rectal_temperature`
is `30.5`, which is below `target - 0.5 = 31.5`: the claimed interval
membership fails because `np.clip` returns the upper bound when the
bounds cross. -/
theorem temp_bound_claim_counterexample :
    (simulate_rectal_temperature 30 32 24 1 5 5 zeroStream).1 = [61/2]
      ∧ ¬ ((32 : ℚ) - 1/2 ≤ 61/2) := by
  constructor
  · have hr : List.range (arangeLen 5 5) = [0] := by
      decide
    have hsteps : pyInt (|30 - (32 : ℚ)| / (24 / 60) / (5 : ℕ)) = 1 := by
      norm_num [pyInt]
    simp only [simulate_rectal_temperature, hr, hsteps, mapRng, tempStep,
      npNormal, npClip, Rng.next, zeroStream]
    norm_num [min_def, max_def]
  · norm_num

/-- C1 (amended): whenever `target - 0.5 ≤ baseline + 0.5`, every
temperature sample lies in `[target - 0.5, baseline + 0.5]`; and
unconditionally every heart-rate sample lies in `[80, 180]`, every
systolic/diastolic sample in `[40, 80]` / `[20, 50]`, and every SpO2
sample in `[92, 100]` — every value written into a modality's series
lies within that modality's declared clinical bound after clipping. -/
theorem modality_bounds_after_clipping (bt tt cr rr hr0 sys0 dia0 o20
    stress : ℚ) (dm ts : ℕ) (sin2pi : ℚ → ℚ) (dist : Bool)
    (s1 s2 s3 s4 : Rng) (h : tt - 1/2 ≤ bt + 1/2) :
    (∀ x ∈ (simulate_rectal_temperature bt tt cr rr dm ts s1).1,
        tt - 1/2 ≤ x ∧ x ≤ bt + 1/2)
    ∧ (∀ x ∈ (generate_heart_rate_data hr0 dm ts stress sin2pi s2).1,
        80 ≤ x ∧ x ≤ 180)
    ∧ (∀ p ∈ (generate_blood_pressure_data sys0 dia0 dm ts sin2pi s3).1,
        (40 ≤ p.1 ∧ p.1 ≤ 80) ∧ (20 ≤ p.2 ∧ p.2 ≤ 50))
    ∧ (∀ x ∈ (generate_oxygen_saturation_data o20 dm ts dist s4).1,
        92 ≤ x ∧ x ≤ 100) := by
  refine ⟨?_, ?_, ?_, ?_⟩
  · intro x hx
    rcases mapRng_mem _ _ _ _ hx with ⟨i, _, s', hs'⟩
    rcases tempStep_shape bt tt cr _ ts i s' with ⟨y, hy⟩
    rw [hs', hy]
    exact npClip_bounds y _ _ h
  · intro x hx
    unfold generate_heart_rate_data at hx
    rcases mapRng_mem _ _ _ _ hx with ⟨i, _, s', hs'⟩
    rcases hrStep_shape hr0 _ stress sin2pi ts i s' with ⟨y, hy⟩
    rw [hs', hy]
    exact npClip_bounds y 80 180 (by norm_num)
  · intro p hp
    rcases mapRng_mem _ _ _ _ hp with ⟨i, _, s', hs'⟩
    rcases bpStep_shape sys0 dia0 sin2pi ts i s' with ⟨y, z, hyz⟩
    rw [hs', hyz]
    exact ⟨npClip_bounds y 40 80 (by norm_num),
      npClip_bounds z 20 50 (by norm_num)⟩
  · intro x hx
    rcases mapRng_mem _ _ _ _ hx with ⟨i, _, s', hs'⟩
    rcases spo2Step_shape o20 dist ts i s' with ⟨y, hy⟩
    rw [hs', hy]
    exact npClip_bounds y 92 100 (by norm_num)

/-- C1 witness: the amended bounds at a concrete instantiation
(baseline 37, target 33, the batch cadence, the zero stream). -/
theorem modality_bounds_after_clipping_witness :
    (∀ x ∈ (simulate_rectal_temperature 37 33 (1/200) (1/1200) 5 5
        zeroStream).1, (33 : ℚ) - 1/2 ≤ x ∧ x ≤ 37 + 1/2)
    ∧ (∀ x ∈ (generate_heart_rate_data 140 5 5 (1/2) (fun _ => 0)
        zeroStream).1, 80 ≤ x ∧ x ≤ 180)
    ∧ (∀ p ∈ (generate_blood_pressure_data 60 38 5 5 (fun _ => 0)
        zeroStream).1, (40 ≤ p.1 ∧ p.1 ≤ 80) ∧ (20 ≤ p.2 ∧ p.2 ≤ 50))
    ∧ (∀ x ∈ (generate_oxygen_saturation_data 97 5 5 true
        zeroStream).1, 92 ≤ x ∧ x ≤ 100) :=
  modality_bounds_after_clipping 37 33 (1/200) (1/1200) 140 60 38 97
    (1/2) 5 5 (fun _ => 0) true zeroStream zeroStream zeroStream
    zeroStream (by norm_num)

/-- C5: the composed pipeline divides the protocol cooling rate
(°C/hour) by 60 at the call site (src/utils/data_generator.py:335) and
`simulate_rectal_temperature` divides its `cooling_rate` argument —
documented by its own docstring as already being °C/min — by 60 again
(line 117).  With baseline 37, target 33, protocol rate 0.3 °C/h and
zero noise, the sample at elapsed minute 5 is `37 - 0.3/3600 * 5 =
88799/2400 ≈ 36.99979`, not the `37 - 0.3/60 * 5 = 36.975` the claim
(and the simulate docstring) prescribe. -/
theorem cooling_rate_double_division :
    ((simulate_rectal_temperature 37 33 ((3/10) / 60) ((5/100) / 60) 10 5
        zeroStream).1.get? 1 = some (88799/2400))
    ∧ (88799/2400 : ℚ) ≠ 37 - (3/10) / 60 * 5 := by
  constructor
  · have hr : List.range (arangeLen 10 5) = [0, 1] := by
      decide
    have habs : |(37 : ℚ) - 33| = 4 := by norm_num
    have hsteps :
        pyInt (|(37 : ℚ) - 33| / ((3/10) / 60 / 60) / ((5 : ℕ) : ℚ))
          = 9600 := by
      rw [habs]
      norm_num [pyInt]
    simp only [simulate_rectal_temperature, hr, hsteps, mapRng, tempStep,
      npNormal, npClip, Rng.next, zeroStream]
    norm_num [min_def, max_def]
  · norm_num

/-- C6: the desaturation-cycle arithmetic of
src/utils/data_generator.py:211 uses `i % (20 * 60 / time_step) <
10 * 60 / time_step` on the 5-minute sample index, i.e. 240-sample
(20-hour) cycles: sample index 2 (minute 10) satisfies the source
condition and receives a dip (`95 = 97 - 2` with zero noise), although
minute 10 lies in the second half of its 20-minute cycle
(`10 % 20 = 10`, not `< 10`), where the claim — and the source's own
"(15-30 min intervals)" comment — say no dip may be applied. -/
theorem spo2_dip_cycle_units :
    dipCond 5 2
    ∧ ¬ (pymod ((2 : ℚ) * 5) 20 < 10)
    ∧ ((generate_oxygen_saturation_data 97 15 5 true zeroStream).1.get? 2
        = some 95) := by
  refine ⟨?_, ?_, ?_⟩
  · show pymod (2 : ℚ) (20 * 60 / ((5 : ℕ) : ℚ)) < 10 * 60 / ((5 : ℕ) : ℚ)
    norm_num [pymod]
  · norm_num [pymod]
  · have hr : List.range (arangeLen 15 5) = [0, 1, 2] := by
      decide
    have hdip : ∀ i, i < 3 → dipCond 5 i := by
      intro i hi
      interval_cases i <;>
        · show pymod _ (20 * 60 / ((5 : ℕ) : ℚ)) < 10 * 60 / ((5 : ℕ) : ℚ)
          norm_num [pymod]
    simp only [generate_oxygen_saturation_data, hr, mapRng, spo2Step,
      npUniform, npNormal, npClip, Rng.next, zeroStream]
    rw [if_pos ⟨trivial, hdip 0 (by norm_num)⟩,
      if_pos ⟨trivial, hdip 1 (by norm_num)⟩,
      if_pos ⟨trivial, hdip 2 (by norm_num)⟩]
    norm_num [min_def, max_def]

/-- A draw stream whose severity draw (index 3) selects "mild" while
the later seizure-risk severity draw (index 11) selects "severe". -/
def mildSevereStream : ℕ → ℚ :=
  fun i => if i = 11 then 9/10 else 0

/-- C10: in every generated `PatientBaseline` the seizure-risk factor
is one of `{0.1, 0.4, 0.7}`; it is a function of the twelfth raw draw
only (the second, independent severity draw), not of the baseline's
own `hie_severity` (the fourth draw); and on a concrete stream the
baseline comes out with `hie_severity = "mild"` while
`seizure_risk_factor = 0.7`, the severe mapping's value. -/
theorem seizure_risk_second_draw :
    (∀ (stream : ℕ → ℚ) (pid : String),
      (generate_baseline_parameters pid ⟨stream, 0⟩).1.seizure_risk_factor
          = 1/10
        ∨ (generate_baseline_parameters pid
            ⟨stream, 0⟩).1.seizure_risk_factor = 4/10
        ∨ (generate_baseline_parameters pid
            ⟨stream, 0⟩).1.seizure_risk_factor = 7/10)
    ∧ (∀ (stream stream' : ℕ → ℚ) (pid pid' : String),
        stream 11 = stream' 11 →
        (generate_baseline_parameters pid ⟨stream, 0⟩).1.seizure_risk_factor
          = (generate_baseline_parameters pid'
              ⟨stream', 0⟩).1.seizure_risk_factor)
    ∧ ((generate_baseline_parameters "P"
          ⟨mildSevereStream, 0⟩).1.hie_severity = "mild"
        ∧ (generate_baseline_parameters "P"
            ⟨mildSevereStream, 0⟩).1.seizure_risk_factor = 7/10) := by
  refine ⟨?_, ?_, ?_⟩
  · intro stream pid
    simp only [generate_baseline_parameters, npUniform, npRandint,
      npChoice3, Rng.next, severityRisk]
    split_ifs <;> simp
  · intro stream stream' pid pid' h
    simp only [generate_baseline_parameters, npUniform, npRandint,
      npChoice3, Rng.next, severityRisk]
    rw [h]
  · constructor
    · simp only [generate_baseline_parameters, npUniform, npRandint,
        npChoice3, Rng.next, mildSevereStream]
      norm_num
    · simp only [generate_baseline_parameters, npUniform, npRandint,
        npChoice3, Rng.next, mildSevereStream, severityRisk]
      norm_num
      rw [if_neg (by decide), if_neg (by decide)]

/-- C10 witness: the independence part applied at the constant-zero
stream together with the membership part. -/
theorem seizure_risk_second_draw_witness :
    ((generate_baseline_parameters "A"
        ⟨fun _ => 0, 0⟩).1.seizure_risk_factor = 1/10
      ∨ (generate_baseline_parameters "A"
          ⟨fun _ => 0, 0⟩).1.seizure_risk_factor = 4/10
      ∨ (generate_baseline_parameters "A"
          ⟨fun _ => 0, 0⟩).1.seizure_risk_factor = 7/10)
    ∧ (generate_baseline_parameters "A"
        ⟨fun _ => 0, 0⟩).1.seizure_risk_factor
      = (generate_baseline_parameters "B"
          ⟨fun _ => 0, 0⟩).1.seizure_risk_factor :=
  ⟨seizure_risk_second_draw.1 (fun _ => 0) "A",
   seizure_risk_second_draw.2.1 (fun _ => 0) (fun _ => 0) "A" "B" rfl⟩

/-- C9 counterexample: with the frame owning only column "a" and
required features ["b", "c"], `build_feature_matrix` raises an error
naming only the first missing column "b", not every missing column;
and for a row missing the required features, `build_scorecard` does
not propagate any failure — it returns a completed scorecard in which
every risk is the default-probability category "LOW". -/
theorem missing_feature_claim_counterexample :
    (build_feature_matrix [("a", [1])] ["b", "c"] = Except.error ["b"])
    ∧ (["b"] ≠ ["b", "c"])
    ∧ (build_scorecard ["x"] ["f1"] true true true true 1 1 1 1 1 =
        [("seizure", "LOW"), ("sepsis", "LOW"), ("cardiac", "LOW"),
         ("renal", "LOW"), ("prognosis", "LOW")]) := by
  refine ⟨?_, by decide, ?_⟩
  · rfl
  · have h : List.all ["f1"] (fun c => List.contains ["x"] c) = false := by
      decide
    simp only [build_scorecard, compute_event_probability, h]
    norm_num [categorize, orZero]

/-- C9 (amended): `build_feature_matrix` fails on the first missing
required column, naming that column alone; `compute_event_probability`
swallows a missing-feature failure into `None`; and `build_scorecard`
then scores the patient anyway, with every risk categorised from the
default probability `0.0` as "LOW" instead of the failure
propagating. -/
theorem missing_feature_first_error_and_default (df : List (String × List ℚ))
    (fc : List String) (c : String) (mp : Bool) (rowCols cols : List String)
    (p pS pSe pC pR pP : ℚ)
    (hfind : fc.find? (fun x => !(df.any (fun col => col.1 == x))) = some c)
    (hmiss : ¬ (cols.all (fun x => rowCols.contains x) = true)) :
    build_feature_matrix df fc = Except.error [c]
    ∧ compute_event_probability mp rowCols cols p = none
    ∧ build_scorecard rowCols cols true true true true pS pSe pC pR pP =
        [("seizure", "LOW"), ("sepsis", "LOW"), ("cardiac", "LOW"),
         ("renal", "LOW"), ("prognosis", "LOW")] := by
  have hnone : ∀ (q : ℚ), compute_event_probability true rowCols cols q
      = none := by
    intro q
    unfold compute_event_probability
    rw [if_neg (by simp), if_neg hmiss]
  refine ⟨?_, ?_, ?_⟩
  · unfold build_feature_matrix
    rw [hfind]
  · unfold compute_event_probability
    rcases mp with _ | _
    · rfl
    · rw [if_neg (by simp), if_neg hmiss]
  · simp only [build_scorecard, hnone]
    norm_num [categorize, orZero]

/-- C9 witness: the amended behaviour at concrete inputs (column "a"
present, features ["b", "c"] required, a row lacking feature "f1"). -/
theorem missing_feature_first_error_and_default_witness :
    build_feature_matrix [("a", [1])] ["b", "c"] = Except.error ["b"]
    ∧ compute_event_probability true ["x"] ["f1"] 1 = none
    ∧ build_scorecard ["x"] ["f1"] true true true true 1 1 1 1 1 =
        [("seizure", "LOW"), ("sepsis", "LOW"), ("cardiac", "LOW"),
         ("renal", "LOW"), ("prognosis", "LOW")] :=
  missing_feature_first_error_and_default [("a", [1])] ["b", "c"] "b"
    true ["x"] ["f1"] 1 1 1 1 1 1 (by decide) (by decide)

/-- The output of one patient's pipeline does not depend on the
wall-clock time captured in the protocol's `start_time`: no dataset
column is built from it. -/
theorem complete_dataset_ignores_wall_clock (pid : String) (d ts : ℕ)
    (sin2pi : ℚ → ℚ) (now now' : ℚ) (s : Rng) :
    generate_complete_patient_dataset pid d ts sin2pi now s =
      generate_complete_patient_dataset pid d ts sin2pi now' s := rfl

/-- C2: two runs of `generate_batch_dataset` on freshly constructed
generators with the same seed, the same patient count and the same
duration produce identical datasets (the same column list, hence equal
row counts and equal values in every column of every row), regardless
of the wall-clock times observed by the two runs. -/
theorem batch_dataset_deterministic (family : ℕ → ℕ → ℚ) (seed : ℕ)
    (sin2pi : ℚ → ℚ) (nows1 nows2 : ℕ → ℚ) (n d : ℕ) (g1 g2 : Rng)
    (h1 : g1 = mkGenerator family seed)
    (h2 : g2 = mkGenerator family seed) :
    generate_batch_dataset g1 sin2pi nows1 n d =
      generate_batch_dataset g2 sin2pi nows2 n d := by
  subst h1
  subst h2
  unfold generate_batch_dataset
  suffices h : ∀ (l : List ℕ) (s : Rng),
      batchAux d sin2pi nows1 l s = batchAux d sin2pi nows2 l s by
    rw [h]
  intro l
  induction l with
  | nil => intro s; rfl
  | cons i is ih =>
    intro s
    have e : generate_complete_patient_dataset (patientOrdinalId i) d 5
        sin2pi (nows1 i) s = generate_complete_patient_dataset
        (patientOrdinalId i) d 5 sin2pi (nows2 i) s :=
      complete_dataset_ignores_wall_clock _ _ _ _ _ _ _
    simp only [batchAux, e, ih]

/-- C2 witness: determinism at a concrete seed family, seed, patient
count and duration, with distinct wall-clock streams. -/
theorem batch_dataset_deterministic_witness :
    generate_batch_dataset (mkGenerator (fun _ _ => 0) 42) (fun _ => 0)
        (fun _ => 0) 1 1 =
      generate_batch_dataset (mkGenerator (fun _ _ => 0) 42) (fun _ => 0)
        (fun _ => 1) 1 1 :=
  batch_dataset_deterministic (fun _ _ => 0) 42 (fun _ => 0) (fun _ => 0)
    (fun _ => 1) 1 1 _ _ rfl rfl

/-- The column names of every per-patient dataset, in pandas order. -/
def patientColumnNames : List String :=
  ["patient_id", "time_minutes", "time_hours_x", "rectal_temperature_c",
   "heart_rate_bpm", "systolic_bp_mmhg", "diastolic_bp_mmhg",
   "oxygen_saturation_percent", "hie_severity", "target_temp_c",
   "time_hours_y", "pH", "pCO2_mmhg", "pO2_mmhg", "lactate_mmol",
   "baseline_birth_weight_kg", "baseline_gestational_age_weeks",
   "baseline_birth_hour", "baseline_hie_severity",
   "baseline_baseline_heart_rate", "baseline_baseline_resp_rate",
   "baseline_baseline_systolic_bp", "baseline_baseline_diastolic_bp",
   "baseline_baseline_oxygen_sat", "baseline_baseline_rectal_temp",
   "baseline_baseline_core_temp", "baseline_seizure_risk_factor"]

/-- C8 counterexample: the concrete 4-hour dataset for patient "P" has
no column named `time_hours`: the merge of
src/utils/data_generator.py:394 joins on the distinct keys
`time_hours_abg`/`time_hours` while both frames own a `time_hours`
column, so pandas suffixes the overlapping name into `time_hours_x`
and `time_hours_y`. -/
theorem schema_claim_counterexample :
    ¬ ("time_hours" ∈ (generate_complete_patient_dataset "P" 4 5
        (fun _ => 0) 0 zeroStream).1.map Prod.fst) := by
  have h : (generate_complete_patient_dataset "P" 4 5
      (fun _ => 0) 0 zeroStream).1.map Prod.fst = patientColumnNames := rfl
  rw [h]
  decide

/-- C8 (amended): every per-patient dataset contains exactly the
columns `patient_id, time_minutes, time_hours_x, rectal_temperature_c,
heart_rate_bpm, systolic_bp_mmhg, diastolic_bp_mmhg,
oxygen_saturation_percent, hie_severity, target_temp_c, time_hours_y,
pH, pCO2_mmhg, pO2_mmhg, lactate_mmol` plus one `baseline_*` column
per non-identifier baseline field, in that order: the vitals timeline
column is named `time_hours_x` and the merge also leaves the native
blood-gas timestamp column `time_hours_y`, because pandas suffixes the
overlapping `time_hours` name on both sides of the join. -/
theorem patient_dataset_schema (pid : String) (d ts : ℕ)
    (sin2pi : ℚ → ℚ) (now : ℚ) (s : Rng) :
    (generate_complete_patient_dataset pid d ts sin2pi now s).1.map
      Prod.fst = patientColumnNames := rfl

theorem ffillAux_length : ∀ (l : List Cell) (last : Cell),
    (ffillAux last l).length = l.length := by
  intro l
  induction l with
  | nil => intro last; rfl
  | cons c cs ih =>
    intro last
    cases c <;> simp [ffillAux, ih]

theorem ffill_length (l : List Cell) : (ffill l).length = l.length :=
  ffillAux_length l Cell.nan

theorem mergedCol_length (abg : BloodGas) (vals : List ℚ) (d ts : ℕ) :
    (mergedCol abg vals d ts).length = vitalsLen d ts := by
  simp [mergedCol]

theorem completeParts_temps_length (pid : String) (d ts : ℕ)
    (sp : ℚ → ℚ) (now : ℚ) (s : Rng) :
    (completeParts pid d ts sp now s).rectal_temps.length =
      arangeLen (d * 60) ts := by
  show (mapRng _ (List.range (arangeLen (d * 60) ts)) _).1.length = _
  rw [mapRng_length]
  exact List.length_range _

theorem completeParts_hrs_length (pid : String) (d ts : ℕ)
    (sp : ℚ → ℚ) (now : ℚ) (s : Rng) :
    (completeParts pid d ts sp now s).heart_rates.length =
      arangeLen (d * 60) ts := by
  show (mapRng _ (List.range (arangeLen (d * 60) ts)) _).1.length = _
  rw [mapRng_length]
  exact List.length_range _

theorem completeParts_bps_length (pid : String) (d ts : ℕ)
    (sp : ℚ → ℚ) (now : ℚ) (s : Rng) :
    (completeParts pid d ts sp now s).bps.length =
      arangeLen (d * 60) ts := by
  show (mapRng _ (List.range (arangeLen (d * 60) ts)) _).1.length = _
  rw [mapRng_length]
  exact List.length_range _

theorem completeParts_spo2_length (pid : String) (d ts : ℕ)
    (sp : ℚ → ℚ) (now : ℚ) (s : Rng) :
    (completeParts pid d ts sp now s).spo2.length =
      arangeLen (d * 60) ts := by
  show (mapRng _ (List.range (arangeLen (d * 60) ts)) _).1.length = _
  rw [mapRng_length]
  exact List.length_range _

theorem completeParts_abg_pH_length (pid : String) (d ts : ℕ)
    (sp : ℚ → ℚ) (now : ℚ) (s : Rng) :
    (completeParts pid d ts sp now s).abg.pH.length = d / 4 := by
  show ((mapRng _ (List.range (d / 4)) _).1.map _).length = _
  rw [List.length_map, mapRng_length]
  exact List.length_range _

theorem completeParts_abg_times_length (pid : String) (d ts : ℕ)
    (sp : ℚ → ℚ) (now : ℚ) (s : Rng) :
    (completeParts pid d ts sp now s).abg.times.length =
      arangeLen d 4 := by
  show ((List.range (arangeLen d 4)).map _).length = _
  simp

theorem concat2_mem (a : DataFrame) : ∀ (b : DataFrame)
    (c : String × List Cell), c ∈ concat2 a b →
    ∃ ca ∈ a, ∃ cb ∈ b, c = (ca.1, ca.2 ++ cb.2) := by
  induction a with
  | nil => intro b c hc; simp [concat2] at hc
  | cons x xs ih =>
    intro b c hc
    cases b with
    | nil => simp [concat2] at hc
    | cons y ys =>
      simp only [concat2, List.zipWith_cons_cons, List.mem_cons] at hc
      rcases hc with rfl | hc
      · exact ⟨x, List.mem_cons_self _ _, y, List.mem_cons_self _ _, rfl⟩
      · rcases ih ys c hc with ⟨ca, hca, cb, hcb, rfl⟩
        exact ⟨ca, List.mem_cons_of_mem _ hca, cb,
          List.mem_cons_of_mem _ hcb, rfl⟩

theorem assembleDf_col_lengths (pid : String) (d ts : ℕ)
    (P : PatientParts)
    (h1 : P.rectal_temps.length = vitalsLen d ts)
    (h2 : P.heart_rates.length = vitalsLen d ts)
    (h3 : P.bps.length = vitalsLen d ts)
    (h4 : P.spo2.length = vitalsLen d ts) :
    ∀ c ∈ assembleDf pid d ts P, c.2.length = vitalsLen d ts := by
  intro c hc
  simp only [assembleDf, List.mem_cons, List.not_mem_nil, or_false] at hc
  rcases hc with rfl|rfl|rfl|rfl|rfl|rfl|rfl|rfl|rfl|rfl|rfl|rfl|rfl|rfl|
    rfl|rfl|rfl|rfl|rfl|rfl|rfl|rfl|rfl|rfl|rfl|rfl|rfl <;>
    simp [List.length_replicate, List.length_map, List.length_range,
      ffill_length, mergedCol_length, h1, h2, h3, h4]


theorem gcpd_fst (pid : String) (d ts : ℕ) (sp : ℚ → ℚ) (now : ℚ)
    (s : Rng) :
    (generate_complete_patient_dataset pid d ts sp now s).1 =
      assembleDf pid d ts (completeParts pid d ts sp now s) := rfl

theorem gbd_fst (g : Rng) (sp : ℚ → ℚ) (nows : ℕ → ℚ) (n d : ℕ) :
    (generate_batch_dataset g sp nows n d).1 =
      concatDfs (batchAux d sp nows (List.range n) g).1 := rfl

theorem batchAux_fst_nil (d : ℕ) (sp : ℚ → ℚ) (nows : ℕ → ℚ)
    (s : Rng) : (batchAux d sp nows [] s).1 = [] := rfl

theorem batchAux_fst_cons (d : ℕ) (sp : ℚ → ℚ) (nows : ℕ → ℚ) (i : ℕ)
    (is : List ℕ) (s : Rng) :
    (batchAux d sp nows (i :: is) s).1 =
      (generate_complete_patient_dataset (patientOrdinalId i) d 5 sp
        (nows i) s).1 ::
      (batchAux d sp nows is (generate_complete_patient_dataset
        (patientOrdinalId i) d 5 sp (nows i) s).2).1 := rfl

theorem concatDfs_three (a b c : DataFrame) :
    concatDfs [a, b, c] = concat2 (concat2 a b) c := rfl

theorem getCol_patient_id_concat3 (p0 p1 p2 : String) (d ts : ℕ)
    (P0 P1 P2 : PatientParts) :
    getCol (concat2 (concat2 (assembleDf p0 d ts P0)
        (assembleDf p1 d ts P1)) (assembleDf p2 d ts P2)) "patient_id" =
      some ((List.replicate (vitalsLen d ts) (Cell.str p0) ++
        List.replicate (vitalsLen d ts) (Cell.str p1)) ++
        List.replicate (vitalsLen d ts) (Cell.str p2)) := rfl

/-- C7: for any draws, `generate_complete_patient_dataset` at 72 hours
and the default 5-minute cadence yields a dataset whose every column
has exactly 864 rows, built from exactly 18 blood-gas samples; and
`generate_batch_dataset` with 3 patients over 72 hours yields a
dataset whose every column has exactly 3 × 864 = 2592 rows and whose
`patient_id` column holds the three distinct identifiers
PATIENT_0001, PATIENT_0002, PATIENT_0003. -/
theorem end_to_end_counts (pid : String) (sp : ℚ → ℚ) (now : ℚ)
    (s g : Rng) (nows : ℕ → ℚ) :
    (∀ c ∈ (generate_complete_patient_dataset pid 72 5 sp now s).1,
        c.2.length = 864)
    ∧ (completeParts pid 72 5 sp now s).abg.pH.length = 18
    ∧ (completeParts pid 72 5 sp now s).abg.times.length = 18
    ∧ (∀ c ∈ (generate_batch_dataset g sp nows 3 72).1,
        c.2.length = 2592)
    ∧ getCol (generate_batch_dataset g sp nows 3 72).1 "patient_id" =
        some ((List.replicate 864 (Cell.str "PATIENT_0001") ++
          List.replicate 864 (Cell.str "PATIENT_0002")) ++
          List.replicate 864 (Cell.str "PATIENT_0003"))
    ∧ ((List.replicate 864 (Cell.str "PATIENT_0001") ++
          List.replicate 864 (Cell.str "PATIENT_0002")) ++
          List.replicate 864 (Cell.str "PATIENT_0003")).toFinset.card
        = 3 := by
  have hvl : vitalsLen 72 5 = 864 := by decide
  have hA : ∀ (pid' : String) (now' : ℚ) (s' : Rng),
      ∀ c ∈ (generate_complete_patient_dataset pid' 72 5 sp now' s').1,
        c.2.length = 864 := by
    intro pid' now' s' c hc
    rw [gcpd_fst] at hc
    have h := assembleDf_col_lengths pid' 72 5
      (completeParts pid' 72 5 sp now' s')
      (completeParts_temps_length pid' 72 5 sp now' s')
      (completeParts_hrs_length pid' 72 5 sp now' s')
      (completeParts_bps_length pid' 72 5 sp now' s')
      (completeParts_spo2_length pid' 72 5 sp now' s') c hc
    rw [hvl] at h
    exact h
  have hr3 : List.range 3 = [0, 1, 2] := rfl
  refine ⟨hA pid now s, completeParts_abg_pH_length pid 72 5 sp now s,
    completeParts_abg_times_length pid 72 5 sp now s, ?_, ?_, ?_⟩
  · intro c hc
    rw [gbd_fst, hr3, batchAux_fst_cons, batchAux_fst_cons,
      batchAux_fst_cons, batchAux_fst_nil, concatDfs_three] at hc
    rcases concat2_mem _ _ _ hc with ⟨ca, hca, cb, hcb, rfl⟩
    rcases concat2_mem _ _ _ hca with ⟨ca1, hca1, ca2, hca2, rfl⟩
    have l1 := hA _ _ _ ca1 hca1
    have l2 := hA _ _ _ ca2 hca2
    have l3 := hA _ _ _ cb hcb
    simp only [List.length_append, l1, l2, l3]
  · have hid0 : patientOrdinalId 0 = "PATIENT_0001" := by decide
    have hid1 : patientOrdinalId 1 = "PATIENT_0002" := by decide
    have hid2 : patientOrdinalId 2 = "PATIENT_0003" := by decide
    rw [gbd_fst, hr3, batchAux_fst_cons, batchAux_fst_cons,
      batchAux_fst_cons, batchAux_fst_nil, concatDfs_three,
      gcpd_fst, gcpd_fst, gcpd_fst, getCol_patient_id_concat3,
      hvl, hid0, hid1, hid2]
  · rw [List.toFinset_append, List.toFinset_append,
      List.toFinset_replicate_of_ne_zero (by norm_num),
      List.toFinset_replicate_of_ne_zero (by norm_num),
      List.toFinset_replicate_of_ne_zero (by norm_num)]
    decide

theorem eegRun_length (p N : ℚ) (ts : ℕ) :
    ∀ (l : List ℕ) (st : EegState),
      (eegRun p N ts l st).1.length = l.length := by
  intro l
  induction l with
  | nil => intro st; rfl
  | cons i is ih =>
    intro st
    simp only [eegRun]
    exact congrArg Nat.succ (ih _)

theorem eegRun_append (p N : ℚ) (ts : ℕ) :
    ∀ (l1 l2 : List ℕ) (st : EegState),
      eegRun p N ts (l1 ++ l2) st =
        ((eegRun p N ts l1 st).1 ++
            (eegRun p N ts l2 (eegRun p N ts l1 st).2).1,
          (eegRun p N ts l2 (eegRun p N ts l1 st).2).2) := by
  intro l1
  induction l1 with
  | nil => intro l2 st; rfl
  | cons i is ih =>
    intro l2 st
    simp only [List.cons_append, eegRun, List.append_eq, ih]

theorem eegStep_active_state (p N sm : ℚ) (i : ℕ) (s : Rng)
    (h : ((i * 1 : ℕ) : ℚ) / 60 < sm + 2) :
    (eegStep p N 1 i ⟨some sm, s⟩).1.active = true ∧
    (eegStep p N 1 i ⟨some sm, s⟩).2 =
      ⟨some sm, ⟨s.stream, s.pos + 1 + 1 + 1⟩⟩ := by
  unfold eegStep npUniform Rng.next
  simp only [if_pos h]
  exact ⟨trivial, rfl⟩

theorem eegStep_deactivate (p N sm : ℚ) (i : ℕ) (s : Rng)
    (h : ¬ (((i * 1 : ℕ) : ℚ) / 60 < sm + 2)) :
    (eegStep p N 1 i ⟨some sm, s⟩).1.active = false ∧
    (eegStep p N 1 i ⟨some sm, s⟩).2.start = none := by
  unfold eegStep npUniform Rng.next
  simp only [if_neg h]
  exact ⟨trivial, trivial⟩

theorem eegStep_trigger (p N : ℚ) (t : ℕ) (s0 : Rng)
    (hfire : s0.stream s0.pos < p / N) :
    (eegStep p N 1 t ⟨none, s0⟩).1.active = true ∧
    (eegStep p N 1 t ⟨none, s0⟩).2 =
      ⟨some (((t * 1 : ℕ) : ℚ) / 60),
        ⟨s0.stream, s0.pos + 1 + 1 + 1 + 1⟩⟩ := by
  unfold eegStep npUniform npRandom Rng.next
  simp only [if_pos hfire]
  have h2 : ((t * 1 : ℕ) : ℚ) / 60 < ((t * 1 : ℕ) : ℚ) / 60 + 2 := by
    linarith
  simp only [if_pos h2]
  exact ⟨trivial, rfl⟩

theorem eegStep_bounds (p N : ℚ) (ts i : ℕ) (st : EegState)
    (wf : ∀ k, 0 ≤ st.rng.stream k ∧ st.rng.stream k < 1)
    (ha : (eegStep p N ts i st).1.active = true) :
    50 ≤ (eegStep p N ts i st).1.delta
    ∧ (eegStep p N ts i st).1.delta ≤ 150
    ∧ 100 ≤ (eegStep p N ts i st).1.theta
    ∧ (eegStep p N ts i st).1.theta ≤ 250
    ∧ 200 ≤ (eegStep p N ts i st).1.alpha
    ∧ (eegStep p N ts i st).1.alpha ≤ 400 := by
  obtain ⟨start, rng⟩ := st
  cases start with
  | some sm =>
    by_cases h : ((i * ts : ℕ) : ℚ) / 60 < sm + 2
    · unfold eegStep npUniform Rng.next at ha ⊢
      simp only [if_pos h, if_true, if_false] at ha ⊢
      refine ⟨?_, ?_, ?_, ?_, ?_, ?_⟩ <;>
        linarith [(wf rng.pos).1, (wf rng.pos).2, (wf (rng.pos + 1)).1,
          (wf (rng.pos + 1)).2, (wf (rng.pos + 2)).1, (wf (rng.pos + 2)).2]
    · unfold eegStep npUniform Rng.next at ha
      simp only [if_neg h] at ha
      exact absurd ha (by simp)
  | none =>
    by_cases hf : rng.stream rng.pos < p / N
    · have h2 : ((i * ts : ℕ) : ℚ) / 60 < ((i * ts : ℕ) : ℚ) / 60 + 2 := by
        linarith
      unfold eegStep npUniform npRandom Rng.next at ha ⊢
      simp only [if_pos hf, if_pos h2, if_true, if_false] at ha ⊢
      refine ⟨?_, ?_, ?_, ?_, ?_, ?_⟩ <;>
        linarith [(wf (rng.pos + 1)).1, (wf (rng.pos + 1)).2,
          (wf (rng.pos + 2)).1, (wf (rng.pos + 2)).2,
          (wf (rng.pos + 3)).1, (wf (rng.pos + 3)).2]
    · unfold eegStep npUniform npRandom Rng.next at ha
      simp only [if_neg hf] at ha
      exact absurd ha (by simp)

theorem eegRun_active_window (p N sm : ℚ) :
    ∀ (m i : ℕ) (s : Rng),
      (∀ j, j < m → (((i + j) * 1 : ℕ) : ℚ) / 60 < sm + 2) →
      (∀ j, j < m →
        ∃ pos' : ℕ,
          (eegRun p N 1 (List.range' i m) ⟨some sm, s⟩).1[j]? =
            some ((eegStep p N 1 (i + j)
              ⟨some sm, ⟨s.stream, pos'⟩⟩).1))
      ∧ ∃ pos'' : ℕ,
          (eegRun p N 1 (List.range' i m) ⟨some sm, s⟩).2 =
            ⟨some sm, ⟨s.stream, pos''⟩⟩ := by
  intro m
  induction m with
  | zero =>
    intro i s hwin
    exact ⟨fun j hj => absurd hj (Nat.not_lt_zero j), s.pos, rfl⟩
  | succ m ih =>
    intro i s hwin
    have hh : ((i * 1 : ℕ) : ℚ) / 60 < sm + 2 := by
      have := hwin 0 (Nat.succ_pos m)
      simpa using this
    have hstep := eegStep_active_state p N sm i s hh
    have hrun : eegRun p N 1 (List.range' i (m + 1)) ⟨some sm, s⟩ =
        ((eegStep p N 1 i ⟨some sm, s⟩).1 ::
          (eegRun p N 1 (List.range' (i + 1) m)
            (eegStep p N 1 i ⟨some sm, s⟩).2).1,
         (eegRun p N 1 (List.range' (i + 1) m)
            (eegStep p N 1 i ⟨some sm, s⟩).2).2) := by
      rw [List.range'_succ]
      rfl
    rw [hrun, hstep.2]
    have ihm := ih (i + 1) ⟨s.stream, s.pos + 1 + 1 + 1⟩ (by
      intro j hj
      have h2 : i + 1 + j = i + (j + 1) := by omega
      rw [h2]
      exact hwin (j + 1) (by omega))
    refine ⟨?_, ?_⟩
    · intro j hj
      cases j with
      | zero =>
        refine ⟨s.pos, ?_⟩
        simp only [List.getElem?_cons_zero, Nat.add_zero, Option.some_inj]
      | succ j =>
        obtain ⟨pos', hpos⟩ := ihm.1 j (by omega)
        refine ⟨pos', ?_⟩
        simp only [List.getElem?_cons_succ]
        have h2 : i + 1 + j = i + (j + 1) := by omega
        rw [h2] at hpos
        exact hpos
    · obtain ⟨pos'', hpos''⟩ := ihm.2
      exact ⟨pos'', hpos''⟩

theorem castDiv_lt_window (a b : ℕ) (hab : a < b + 120) :
    ((a * 1 : ℕ) : ℚ) / 60 < ((b * 1 : ℕ) : ℚ) / 60 + 2 := by
  have h60 : (0 : ℚ) < 60 := by norm_num
  rw [div_lt_iff h60]
  have he : (((b * 1 : ℕ) : ℚ) / 60 + 2) * 60 = ((b * 1 : ℕ) : ℚ) + 120 := by
    ring
  rw [he]
  push_cast
  rw [mul_one, mul_one]
  exact_mod_cast hab

theorem castDiv_window_end (t : ℕ) :
    ¬ ((((t + 120) * 1 : ℕ) : ℚ) / 60 < ((t * 1 : ℕ) : ℚ) / 60 + 2) := by
  push_cast
  rw [mul_one, mul_one, not_lt]
  rw [div_add' _ _ _ (by norm_num : (60 : ℚ) ≠ 0)]
  have he : (t : ℚ) + 2 * 60 = t + 120 := by ring
  rw [he]

theorem eegRun_cons_head (p N : ℚ) (ts x : ℕ) (xs : List ℕ)
    (st : EegState) :
    (eegRun p N ts (x :: xs) st).1[0]? =
      some ((eegStep p N ts x st).1) := by
  have h : eegRun p N ts (x :: xs) st =
      ((eegStep p N ts x st).1 ::
        (eegRun p N ts xs (eegStep p N ts x st).2).1,
       (eegRun p N ts xs (eegStep p N ts x st).2).2) := rfl
  rw [h]
  simp

theorem eegRun_cons_snd (p N : ℚ) (ts x : ℕ) (xs : List ℕ)
    (st : EegState) :
    (eegRun p N ts (x :: xs) st).2 =
      (eegRun p N ts xs (eegStep p N ts x st).2).2 := rfl

theorem eegRun_post_trigger (p N : ℚ) (t mm : ℕ) (s1 : Rng) :
    (∀ jj, jj < mm → jj < 119 →
      ∃ pos', (eegRun p N 1 (List.range' (t + 1) mm)
          ⟨some (((t * 1 : ℕ) : ℚ) / 60), s1⟩).1[jj]? =
        some ((eegStep p N 1 (t + 1 + jj)
          ⟨some (((t * 1 : ℕ) : ℚ) / 60), ⟨s1.stream, pos'⟩⟩).1))
    ∧ (119 < mm →
      ∃ pos'', (eegRun p N 1 (List.range' (t + 1) mm)
          ⟨some (((t * 1 : ℕ) : ℚ) / 60), s1⟩).1[119]? =
        some ((eegStep p N 1 (t + 120)
          ⟨some (((t * 1 : ℕ) : ℚ) / 60), ⟨s1.stream, pos''⟩⟩).1))
    ∧ (mm = 120 →
      (eegRun p N 1 (List.range' (t + 1) mm)
        ⟨some (((t * 1 : ℕ) : ℚ) / 60), s1⟩).2.start = none) := by
  have hk : min mm 119 ≤ mm := Nat.min_le_left mm 119
  have hsplit : List.range' (t + 1) mm =
      List.range' (t + 1) (min mm 119) ++
        List.range' (t + 1 + min mm 119) (mm - min mm 119) := by
    have h := List.range'_append (t + 1) (min mm 119) (mm - min mm 119) 1
    rw [one_mul, Nat.sub_add_cancel hk] at h
    exact h.symm
  have happ := eegRun_append p N 1 (List.range' (t + 1) (min mm 119))
    (List.range' (t + 1 + min mm 119) (mm - min mm 119))
    ⟨some (((t * 1 : ℕ) : ℚ) / 60), s1⟩
  have hwinfirst : ∀ j, j < min mm 119 →
      (((t + 1 + j) * 1 : ℕ) : ℚ) / 60 < ((t * 1 : ℕ) : ℚ) / 60 + 2 :=
    fun j hj => castDiv_lt_window _ _ (by omega)
  have hwin := eegRun_active_window p N (((t * 1 : ℕ) : ℚ) / 60)
    (min mm 119) (t + 1) s1 hwinfirst
  have hlen1 : (eegRun p N 1 (List.range' (t + 1) (min mm 119))
      ⟨some (((t * 1 : ℕ) : ℚ) / 60), s1⟩).1.length = min mm 119 := by
    rw [eegRun_length, List.length_range']
  refine ⟨?_, ?_, ?_⟩
  · intro jj hjm hj119
    obtain ⟨pos', hpos⟩ := hwin.1 jj (by omega)
    refine ⟨pos', ?_⟩
    rw [hsplit, happ]
    rw [List.getElem?_append_left (by rw [hlen1]; omega)]
    exact hpos
  · intro h119
    obtain ⟨pos'', hst⟩ := hwin.2
    have hmin : min mm 119 = 119 := Nat.min_eq_right (by omega)
    rw [hmin] at hsplit happ hlen1 hst
    refine ⟨pos'', ?_⟩
    rw [hsplit, happ]
    rw [List.getElem?_append_right (by rw [hlen1]), hlen1, hst,
      Nat.sub_self]
    have hq : mm - 119 = (mm - 120) + 1 := by omega
    have hone : t + 1 + 119 = t + 120 := by omega
    rw [hq, hone, List.range'_succ]
    exact eegRun_cons_head p N 1 (t + 120) _ _
  · intro h120
    subst h120
    have hmin : min 120 119 = 119 := by norm_num
    obtain ⟨pos'', hst⟩ := hwin.2
    rw [hmin] at hsplit happ hst
    rw [hsplit, happ, hst]
    have hq : (120 : ℕ) - 119 = 1 := by norm_num
    have hone : t + 1 + 119 = t + 120 := by omega
    rw [hq, hone]
    have hrone : List.range' (t + 120) 1 = [t + 120] := rfl
    rw [hrone]
    have hstep := eegStep_deactivate p N (((t * 1 : ℕ) : ℚ) / 60)
      (t + 120) ⟨s1.stream, pos''⟩ (castDiv_window_end t)
    exact hstep.2

/-- C4 (amended): a triggered onset at second `t` keeps the seizure
state machine in `SeizureActive` for exactly the samples
`t .. t + 119` that exist: within the recorded window the flag at
offset `j` is set iff `j < 120` (so an onset more than 2 minutes
before the end yields exactly 120 consecutive active samples, while an
onset within 2 minutes of the end stays active through the final
sample and yields fewer); after the 121st step the onset marker is
cleared (`None`), permitting a later re-trigger; and, for draws lying
in `[0, 1)`, every sample of the active window is drawn from the
elevated ictal band-power ranges. -/
theorem eeg_onset_window (p N : ℚ) (t m : ℕ) (s0 : Rng)
    (hfire : s0.stream s0.pos < p / N) :
    (∀ j, j < m → j ≤ 120 →
      ((eegRun p N 1 (List.range' t m) ⟨none, s0⟩).1.map
        (fun e => e.active))[j]? = some (decide (j < 120)))
    ∧ (eegRun p N 1 (List.range' t 121) ⟨none, s0⟩).2.start = none
    ∧ ((∀ k, 0 ≤ s0.stream k ∧ s0.stream k < 1) →
       ∀ j, j < m → j < 120 →
       ∃ e : EegSample,
         (eegRun p N 1 (List.range' t m) ⟨none, s0⟩).1[j]? = some e
         ∧ e.active = true ∧ 50 ≤ e.delta ∧ e.delta ≤ 150
         ∧ 100 ≤ e.theta ∧ e.theta ≤ 250
         ∧ 200 ≤ e.alpha ∧ e.alpha ≤ 400) := by
  have htr := eegStep_trigger p N t s0 hfire
  have hcons : ∀ mm : ℕ,
      eegRun p N 1 (List.range' t (mm + 1)) ⟨none, s0⟩ =
      ((eegStep p N 1 t ⟨none, s0⟩).1 ::
        (eegRun p N 1 (List.range' (t + 1) mm)
          (eegStep p N 1 t ⟨none, s0⟩).2).1,
       (eegRun p N 1 (List.range' (t + 1) mm)
          (eegStep p N 1 t ⟨none, s0⟩).2).2) := by
    intro mm
    rw [List.range'_succ]
    rfl
  refine ⟨?_, ?_, ?_⟩
  · intro j hj hj120
    cases m with
    | zero => omega
    | succ mm =>
      have hpt := eegRun_post_trigger p N t mm
        ⟨s0.stream, s0.pos + 1 + 1 + 1 + 1⟩
      rw [hcons mm, htr.2]
      cases j with
      | zero =>
        simp [htr.1]
      | succ jj =>
        simp only [List.map_cons, List.getElem?_cons_succ,
          List.getElem?_map]
        by_cases hjj : jj < 119
        · obtain ⟨pos', hpos⟩ := hpt.1 jj (by omega) hjj
          rw [hpos]
          have hact := (eegStep_active_state p N (((t * 1 : ℕ) : ℚ) / 60)
            (t + 1 + jj) ⟨s0.stream, pos'⟩
            (castDiv_lt_window _ _ (by omega))).1
          rw [Option.map_some']
          rw [hact, decide_eq_true (show jj + 1 < 120 by omega)]
        · have hjj119 : jj = 119 := by omega
          subst hjj119
          obtain ⟨pos'', hpos⟩ := hpt.2.1 (by omega)
          rw [hpos]
          have hact := (eegStep_deactivate p N (((t * 1 : ℕ) : ℚ) / 60)
            (t + 120) ⟨s0.stream, pos''⟩ (castDiv_window_end t)).1
          rw [Option.map_some']
          rw [hact]
          have hd : decide (119 + 1 < 120) = false :=
            decide_eq_false (by omega)
          rw [hd]
  · have hpt := eegRun_post_trigger p N t 120
      ⟨s0.stream, s0.pos + 1 + 1 + 1 + 1⟩
    have h121 : List.range' t 121 = t :: List.range' (t + 1) 120 :=
      List.range'_succ t 120 1
    rw [h121, eegRun_cons_snd, htr.2]
    exact hpt.2.2 rfl
  · intro wf j hj hj120
    cases m with
    | zero => omega
    | succ mm =>
      have hpt := eegRun_post_trigger p N t mm
        ⟨s0.stream, s0.pos + 1 + 1 + 1 + 1⟩
      rw [hcons mm, htr.2]
      cases j with
      | zero =>
        obtain ⟨b1, b2, b3, b4, b5, b6⟩ :=
          eegStep_bounds p N 1 t ⟨none, s0⟩ wf htr.1
        exact ⟨(eegStep p N 1 t ⟨none, s0⟩).1, by simp, htr.1,
          b1, b2, b3, b4, b5, b6⟩
      | succ jj =>
        have hjj : jj < 119 := by omega
        obtain ⟨pos', hpos⟩ := hpt.1 jj (by omega) hjj
        have hwincond : (((t + 1 + jj) * 1 : ℕ) : ℚ) / 60 <
            ((t * 1 : ℕ) : ℚ) / 60 + 2 :=
          castDiv_lt_window _ _ (by omega)
        have hact := (eegStep_active_state p N (((t * 1 : ℕ) : ℚ) / 60)
          (t + 1 + jj) ⟨s0.stream, pos'⟩ hwincond).1
        obtain ⟨b1, b2, b3, b4, b5, b6⟩ := eegStep_bounds p N 1
          (t + 1 + jj)
          ⟨some (((t * 1 : ℕ) : ℚ) / 60), ⟨s0.stream, pos'⟩⟩ wf hact
        refine ⟨_, ?_, hact, b1, b2, b3, b4, b5, b6⟩
        simp only [List.getElem?_cons_succ]
        exact hpos

/-- C4 witness: the amended window behaviour at a concrete onset
(probability 1/5, 60-second recording total, trigger at second 0 on
the all-zero stream). -/
theorem eeg_onset_window_witness :
    (∀ j, j < 60 → j ≤ 120 →
      ((eegRun (1/5) 60 1 (List.range' 0 60) ⟨none, zeroStream⟩).1.map
        (fun e => e.active))[j]? = some (decide (j < 120)))
    ∧ (eegRun (1/5) 60 1 (List.range' 0 121)
        ⟨none, zeroStream⟩).2.start = none
    ∧ ((∀ k, 0 ≤ zeroStream.stream k ∧ zeroStream.stream k < 1) →
       ∀ j, j < 60 → j < 120 →
       ∃ e : EegSample,
         (eegRun (1/5) 60 1 (List.range' 0 60)
           ⟨none, zeroStream⟩).1[j]? = some e
         ∧ e.active = true ∧ 50 ≤ e.delta ∧ e.delta ≤ 150
         ∧ 100 ≤ e.theta ∧ e.theta ≤ 250
         ∧ 200 ≤ e.alpha ∧ e.alpha ≤ 400) :=
  eeg_onset_window (1/5) 60 0 60 zeroStream (by norm_num [zeroStream])

theorem eegRun_cons_tail (p N : ℚ) (ts x : ℕ) (xs : List ℕ)
    (st : EegState) (j : ℕ) :
    (eegRun p N ts (x :: xs) st).1[j + 1]? =
      (eegRun p N ts xs (eegStep p N ts x st).2).1[j]? := by
  have h : eegRun p N ts (x :: xs) st =
      ((eegStep p N ts x st).1 ::
        (eegRun p N ts xs (eegStep p N ts x st).2).1,
       (eegRun p N ts xs (eegStep p N ts x st).2).2) := rfl
  rw [h]
  simp

/-- C4 counterexample: in a 1-minute recording with an onset triggered
at second 0 (well within 2 minutes of the end), every one of the 60
samples is `SeizureActive` — the onset yields 60 active samples, not
the 120 the claim promises for every onset. -/
theorem eeg_claim_counterexample :
    (((generate_eeg_data 1 1 (1/5) none zeroStream).1.map
      (fun e => e.active)).count true = 60)
    ∧ (60 : ℕ) ≠ 120 := by
  refine ⟨?_, by norm_num⟩
  have harange : arangeLen (1 * 60) 1 = 60 := by decide
  have h1 : (generate_eeg_data 1 1 (1/5) none zeroStream).1 =
      (eegRun (1/5) (((1 : ℕ) : ℚ) * 60) 1 (List.range' 0 60)
        ⟨none, zeroStream⟩).1 := by
    unfold generate_eeg_data
    rw [harange, List.range_eq_range']
  have hfire : zeroStream.stream zeroStream.pos <
      (1/5) / (((1 : ℕ) : ℚ) * 60) := by
    norm_num [zeroStream]
  have htr := eegStep_trigger (1/5) (((1 : ℕ) : ℚ) * 60) 0 zeroStream
    hfire
  have hpt := eegRun_post_trigger (1/5) (((1 : ℕ) : ℚ) * 60) 0 59
    ⟨zeroStream.stream, zeroStream.pos + 1 + 1 + 1 + 1⟩
  have hall : ∀ n, n < 60 → ∃ e : EegSample,
      (eegRun (1/5) (((1 : ℕ) : ℚ) * 60) 1 (List.range' 0 60)
        ⟨none, zeroStream⟩).1[n]? = some e ∧ e.active = true := by
    intro n hn
    have hsplit : List.range' 0 60 = 0 :: List.range' 1 59 :=
      List.range'_succ 0 59 1
    rw [hsplit]
    cases n with
    | zero =>
      refine ⟨(eegStep (1/5) (((1 : ℕ) : ℚ) * 60) 1 0
        ⟨none, zeroStream⟩).1, ?_, htr.1⟩
      exact eegRun_cons_head _ _ _ _ _ _
    | succ j =>
      rw [eegRun_cons_tail, htr.2]
      obtain ⟨pos', hpos⟩ := hpt.1 j (by omega) (by omega)
      refine ⟨_, hpos, ?_⟩
      exact (eegStep_active_state (1/5) (((1 : ℕ) : ℚ) * 60)
        (((0 * 1 : ℕ) : ℚ) / 60) (0 + 1 + j) ⟨zeroStream.stream, pos'⟩
        (castDiv_lt_window _ _ (by omega))).1
  rw [h1]
  have hmem : ∀ b ∈ ((eegRun (1/5) (((1 : ℕ) : ℚ) * 60) 1
      (List.range' 0 60) ⟨none, zeroStream⟩).1.map
        (fun e => e.active)), true = b := by
    intro b hb
    obtain ⟨e, he, hbe⟩ := List.mem_map.mp hb
    obtain ⟨n, hn⟩ := List.mem_iff_get?.mp he
    have hlen : n < 60 := by
      have := List.get?_eq_some.mp hn
      obtain ⟨hlt, _⟩ := this
      rw [eegRun_length, List.length_range'] at hlt
      exact hlt
    obtain ⟨e', he', hact⟩ := hall n hlen
    rw [List.get?_eq_getElem?, he'] at hn
    have : e = e' := by
      injection hn with h
      exact h.symm
    rw [← hbe, this, hact]
  calc ((eegRun (1/5) (((1 : ℕ) : ℚ) * 60) 1 (List.range' 0 60)
      ⟨none, zeroStream⟩).1.map (fun e => e.active)).count true
      = ((eegRun (1/5) (((1 : ℕ) : ℚ) * 60) 1 (List.range' 0 60)
        ⟨none, zeroStream⟩).1.map (fun e => e.active)).length :=
        List.count_eq_length.mpr hmem
    _ = 60 := by rw [List.length_map, eegRun_length, List.length_range']

/-- Specification of forward filling: the value at index `i` is the
most recent non-NaN cell at or before `i`, or the carried value. -/
def locfAt (last : Cell) : List Cell → ℕ → Cell
  | [], _ => last
  | c :: _, 0 => match c with | Cell.nan => last | v => v
  | c :: cs, i + 1 =>
    locfAt (match c with | Cell.nan => last | v => v) cs i

theorem ffillAux_getElem? :
    ∀ (l : List Cell) (last : Cell) (i : ℕ), i < l.length →
      (ffillAux last l)[i]? = some (locfAt last l i) := by
  intro l
  induction l with
  | nil => intro last i hi; simp at hi
  | cons c cs ih =>
    intro last i hi
    cases i with
    | zero => cases c <;> simp [ffillAux, locfAt]
    | succ i =>
      cases c <;>
        simpa [ffillAux, locfAt] using ih _ i (by simpa using hi)

theorem ffill_leading_nan :
    ∀ (l : List Cell) (n : ℕ) (last : Cell),
      (∀ j, j ≤ n → l[j]? = some Cell.nan) →
      (ffillAux last l)[n]? = some last := by
  intro l
  induction l with
  | nil =>
    intro n last h
    exact absurd (h 0 (Nat.zero_le n)) (by simp)
  | cons c cs ih =>
    intro n last h
    have hc : c = Cell.nan := by
      have := h 0 (Nat.zero_le n)
      simpa using this
    subst hc
    cases n with
    | zero => simp [ffillAux]
    | succ n =>
      have : ∀ j, j ≤ n → cs[j]? = some Cell.nan := by
        intro j hj
        have := h (j + 1) (by omega)
        simpa using this
      simpa [ffillAux] using ih n last this

theorem gridKey_eq (k0 i : ℕ) :
    (((k0 * 4 : ℕ) : ℚ) = ((i * 5 : ℕ) : ℚ) / 60) ↔ 48 * k0 = i := by
  rw [eq_div_iff (by norm_num : (60 : ℚ) ≠ 0)]
  push_cast
  constructor
  · intro h
    have h2 : ((k0 * 4 * 60 : ℕ) : ℚ) = ((i * 5 : ℕ) : ℚ) := by
      push_cast
      linarith
    have h3 : k0 * 4 * 60 = i * 5 := Nat.cast_injective h2
    omega
  · intro h
    subst h
    push_cast
    ring

theorem lookupRows_hit (i : ℕ) (hdvd : 48 ∣ i) :
    ∀ (m k0 : ℕ) (vals : List ℚ), vals.length = m → k0 ≤ i / 48 →
      i / 48 < k0 + m →
      lookupRows (((i * 5 : ℕ) : ℚ) / 60)
        (((List.range' k0 m).map (fun k => ((k * 4 : ℕ) : ℚ))).zip vals)
        = Cell.num (vals.getD (i / 48 - k0) 0) := by
  intro m
  induction m with
  | zero => intro k0 vals hlen hlo hhi; omega
  | succ m ih =>
    intro k0 vals hlen hlo hhi
    cases vals with
    | nil => simp at hlen
    | cons w ws =>
      rw [List.range'_succ]
      simp only [List.map_cons, List.zip_cons_cons, lookupRows]
      by_cases hk : k0 = i / 48
      · have hkey : ((k0 * 4 : ℕ) : ℚ) = ((i * 5 : ℕ) : ℚ) / 60 := by
          rw [gridKey_eq]
          obtain ⟨q, hq⟩ := hdvd
          subst hq
          rw [hk]
          rw [Nat.mul_div_cancel_left q (by norm_num : 0 < 48)]
        rw [if_pos hkey, hk, Nat.sub_self]
        rfl
      · have hkey : ¬ (((k0 * 4 : ℕ) : ℚ) = ((i * 5 : ℕ) : ℚ) / 60) := by
          rw [gridKey_eq]
          intro h
          obtain ⟨q, hq⟩ := hdvd
          omega
        rw [if_neg hkey]
        have hrec := ih (k0 + 1) ws (by simpa using hlen)
          (by omega) (by omega)
        have hsub : i / 48 - k0 = (i / 48 - (k0 + 1)) + 1 := by omega
        rw [hsub]
        simpa [List.zip, List.getD_cons_succ] using hrec

theorem lookupRows_miss (i : ℕ) (hdvd : ¬ 48 ∣ i) :
    ∀ (m k0 : ℕ) (vals : List ℚ),
      lookupRows (((i * 5 : ℕ) : ℚ) / 60)
        (((List.range' k0 m).map (fun k => ((k * 4 : ℕ) : ℚ))).zip vals)
        = Cell.nan := by
  intro m
  induction m with
  | zero => intro k0 vals; rfl
  | succ m ih =>
    intro k0 vals
    cases vals with
    | nil => rfl
    | cons w ws =>
      rw [List.range'_succ]
      simp only [List.map_cons, List.zip_cons_cons, lookupRows]
      have hkey : ¬ (((k0 * 4 : ℕ) : ℚ) = ((i * 5 : ℕ) : ℚ) / 60) := by
        rw [gridKey_eq]
        intro h
        exact hdvd ⟨k0, h.symm⟩
      rw [if_neg hkey]
      simpa [List.zip] using ih (k0 + 1) ws

theorem locfAt_grid (v : ℕ → ℚ) :
    ∀ (i len p : ℕ), i < len →
      locfAt (if p = 0 then Cell.nan else Cell.num (v ((p - 1) / 48)))
        ((List.range' p len).map
          (fun j => if 48 ∣ j then Cell.num (v (j / 48)) else Cell.nan))
        i = Cell.num (v ((p + i) / 48)) := by
  intro i
  induction i with
  | zero =>
    intro len p hlen
    cases len with
    | zero => omega
    | succ len =>
      rw [List.range'_succ]
      simp only [List.map_cons]
      by_cases h48 : 48 ∣ p
      · simp [locfAt, h48]
      · have hp : p ≠ 0 := by
          intro h
          exact h48 (h ▸ ⟨0, rfl⟩)
        have hdiv : (p - 1) / 48 = p / 48 := by omega
        simp [locfAt, h48, hp, hdiv]
  | succ i ih =>
    intro len p hlen
    cases len with
    | zero => omega
    | succ len =>
      rw [List.range'_succ]
      simp only [List.map_cons]
      by_cases h48 : 48 ∣ p
      · rw [if_pos h48]
        simp only [locfAt]
        have hc : (if p + 1 = 0 then Cell.nan
            else Cell.num (v ((p + 1 - 1) / 48))) =
            Cell.num (v (p / 48)) := by simp
        rw [← hc, ih len (p + 1) (by omega)]
        have harith : p + 1 + i = p + (i + 1) := by omega
        rw [harith]
      · rw [if_neg h48]
        simp only [locfAt]
        have hp : p ≠ 0 := fun h => h48 (h ▸ ⟨0, rfl⟩)
        have hdiv : (p - 1) / 48 = p / 48 := by omega
        have hc : (if p = 0 then Cell.nan
            else Cell.num (v ((p - 1) / 48))) =
            (if p + 1 = 0 then Cell.nan
              else Cell.num (v ((p + 1 - 1) / 48))) := by
          simp [hp, hdiv]
        rw [hc, ih len (p + 1) (by omega)]
        have harith : p + 1 + i = p + (i + 1) := by omega
        rw [harith]

theorem ffill_mergedCol_eq (abg : BloodGas) (vals : List ℚ) (d : ℕ)
    (h4 : 4 ∣ d)
    (htimes : abg.times = (List.range (arangeLen d 4)).map
      (fun k => ((k * 4 : ℕ) : ℚ)))
    (hlen : vals.length = d / 4) (i : ℕ) (hi : i < vitalsLen d 5) :
    (ffill (mergedCol abg vals d 5))[i]? =
      some (Cell.num (vals.getD (i / 48) 0)) := by
  have hvl : vitalsLen d 5 = 12 * d := by
    unfold vitalsLen arangeLen
    omega
  have hal : arangeLen d 4 = d / 4 := by
    unfold arangeLen
    omega
  have hmc : mergedCol abg vals d 5 =
      (List.range' 0 (vitalsLen d 5)).map
        (fun j => if 48 ∣ j then Cell.num (vals.getD (j / 48) 0)
          else Cell.nan) := by
    unfold mergedCol
    rw [← List.range_eq_range']
    apply List.map_congr_left
    intro j hj
    rw [List.mem_range] at hj
    rw [htimes, hal, List.range_eq_range']
    by_cases h48 : 48 ∣ j
    · have hjd : j / 48 < d / 4 := by omega
      have hhit := lookupRows_hit j h48 (d / 4) 0 vals hlen
        (Nat.zero_le _) (by omega)
      rw [if_pos h48]
      rw [Nat.sub_zero] at hhit
      exact hhit
    · have hmiss := lookupRows_miss j h48 (d / 4) 0 vals
      rw [if_neg h48]
      exact hmiss
  rw [hmc]
  have hlistlen : ((List.range' 0 (vitalsLen d 5)).map
      (fun j => if 48 ∣ j then Cell.num (vals.getD (j / 48) 0)
        else Cell.nan)).length = vitalsLen d 5 := by
    simp
  show (ffillAux Cell.nan _)[i]? = _
  rw [ffillAux_getElem? _ _ i (by rw [hlistlen]; exact hi)]
  have hgrid := locfAt_grid (fun k => vals.getD k 0) i (vitalsLen d 5)
    0 hi
  simp only [eq_self_iff_true, if_true, Nat.zero_add] at hgrid
  rw [hgrid]

theorem completeParts_abg_pCO2_length (pid : String) (d ts : ℕ)
    (sp : ℚ → ℚ) (now : ℚ) (s : Rng) :
    (completeParts pid d ts sp now s).abg.pCO2.length = d / 4 := by
  show ((mapRng _ (List.range (d / 4)) _).1.map _).length = _
  rw [List.length_map, mapRng_length]
  exact List.length_range _

theorem completeParts_abg_pO2_length (pid : String) (d ts : ℕ)
    (sp : ℚ → ℚ) (now : ℚ) (s : Rng) :
    (completeParts pid d ts sp now s).abg.pO2.length = d / 4 := by
  show ((mapRng _ (List.range (d / 4)) _).1.map _).length = _
  rw [List.length_map, mapRng_length]
  exact List.length_range _

theorem completeParts_abg_lactate_length (pid : String) (d ts : ℕ)
    (sp : ℚ → ℚ) (now : ℚ) (s : Rng) :
    (completeParts pid d ts sp now s).abg.lactate.length = d / 4 := by
  show ((mapRng _ (List.range (d / 4)) _).1.map _).length = _
  rw [List.length_map, mapRng_length]
  exact List.length_range _

/-- C3: in the dataset of `generate_complete_patient_dataset` (at the
default 5-minute cadence, for any duration the pipeline can build,
i.e. `4 ∣ duration_hours`), every vitals row's blood-gas cells (pH,
pCO2_mmhg, pO2_mmhg, lactate_mmol) hold exactly the blood-gas sample
of index `i / 48` — the most recent 4-hour grid point with timestamp
`4 * (i / 48)` hours ≤ the row's own `5 * i / 60` hours (no
look-ahead, and maximal among such grid points); the dataset's four
blood-gas columns are precisely these forward-filled merge columns;
and the aligner's forward fill leaves any row preceding the first
observed sample explicitly NaN, never zero-filled. -/
theorem bloodgas_locf_alignment (pid : String) (d : ℕ) (sp : ℚ → ℚ)
    (now : ℚ) (s : Rng) (P : PatientParts)
    (hP : P = completeParts pid d 5 sp now s)
    (h4 : 4 ∣ d) (i : ℕ) (hi : i < vitalsLen d 5) :
    ((ffill (mergedCol P.abg P.abg.pH d 5))[i]? =
        some (Cell.num (P.abg.pH.getD (i / 48) 0)))
    ∧ ((ffill (mergedCol P.abg P.abg.pCO2 d 5))[i]? =
        some (Cell.num (P.abg.pCO2.getD (i / 48) 0)))
    ∧ ((ffill (mergedCol P.abg P.abg.pO2 d 5))[i]? =
        some (Cell.num (P.abg.pO2.getD (i / 48) 0)))
    ∧ ((ffill (mergedCol P.abg P.abg.lactate d 5))[i]? =
        some (Cell.num (P.abg.lactate.getD (i / 48) 0)))
    ∧ i / 48 < P.abg.pH.length
    ∧ (((4 * (i / 48) : ℕ) : ℚ) ≤ ((i * 5 : ℕ) : ℚ) / 60)
    ∧ (∀ k : ℕ, ((k * 4 : ℕ) : ℚ) ≤ ((i * 5 : ℕ) : ℚ) / 60 →
        k ≤ i / 48)
    ∧ getCol (generate_complete_patient_dataset pid d 5 sp now s).1
        "pH" = some (ffill (mergedCol P.abg P.abg.pH d 5))
    ∧ getCol (generate_complete_patient_dataset pid d 5 sp now s).1
        "pCO2_mmhg" = some (ffill (mergedCol P.abg P.abg.pCO2 d 5))
    ∧ getCol (generate_complete_patient_dataset pid d 5 sp now s).1
        "pO2_mmhg" = some (ffill (mergedCol P.abg P.abg.pO2 d 5))
    ∧ getCol (generate_complete_patient_dataset pid d 5 sp now s).1
        "lactate_mmol" = some (ffill (mergedCol P.abg P.abg.lactate d 5))
    ∧ (∀ (l : List Cell) (n : ℕ),
        (∀ j, j ≤ n → l[j]? = some Cell.nan) →
        (ffill l)[n]? = some Cell.nan) := by
  subst hP
  have hvl : vitalsLen d 5 = 12 * d := by
    unfold vitalsLen arangeLen
    omega
  have htimes : (completeParts pid d 5 sp now s).abg.times =
      (List.range (arangeLen d 4)).map (fun k => ((k * 4 : ℕ) : ℚ)) :=
    rfl
  refine ⟨?_, ?_, ?_, ?_, ?_, ?_, ?_, rfl, rfl, rfl, rfl, ?_⟩
  · exact ffill_mergedCol_eq _ _ d h4 htimes
      (completeParts_abg_pH_length pid d 5 sp now s) i hi
  · exact ffill_mergedCol_eq _ _ d h4 htimes
      (completeParts_abg_pCO2_length pid d 5 sp now s) i hi
  · exact ffill_mergedCol_eq _ _ d h4 htimes
      (completeParts_abg_pO2_length pid d 5 sp now s) i hi
  · exact ffill_mergedCol_eq _ _ d h4 htimes
      (completeParts_abg_lactate_length pid d 5 sp now s) i hi
  · rw [completeParts_abg_pH_length]
    omega
  · rw [le_div_iff (by norm_num : (0 : ℚ) < 60)]
    have hnat : 4 * (i / 48) * 60 ≤ i * 5 := by omega
    exact_mod_cast hnat
  · intro k hk
    rw [le_div_iff (by norm_num : (0 : ℚ) < 60)] at hk
    have hnat : k * 4 * 60 ≤ i * 5 := by exact_mod_cast hk
    omega
  · intro l n h
    exact ffill_leading_nan l n Cell.nan h

/-- C3 witness: the alignment facts at a concrete 4-hour run for
patient "P" on the all-zero stream, at row 0. -/
theorem bloodgas_locf_alignment_witness :
    ((ffill (mergedCol (completeParts "P" 4 5 (fun _ => 0) 0
        zeroStream).abg (completeParts "P" 4 5 (fun _ => 0) 0
        zeroStream).abg.pH 4 5))[0]? =
      some (Cell.num ((completeParts "P" 4 5 (fun _ => 0) 0
        zeroStream).abg.pH.getD 0 0)))
    ∧ getCol (generate_complete_patient_dataset "P" 4 5 (fun _ => 0) 0
        zeroStream).1 "pH" =
      some (ffill (mergedCol (completeParts "P" 4 5 (fun _ => 0) 0
        zeroStream).abg (completeParts "P" 4 5 (fun _ => 0) 0
        zeroStream).abg.pH 4 5)) := by
  have h := bloodgas_locf_alignment "P" 4 (fun _ => 0) 0 zeroStream
    (completeParts "P" 4 5 (fun _ => 0) 0 zeroStream) rfl ⟨1, rfl⟩ 0
    (by decide)
  exact ⟨h.1, h.2.2.2.2.2.2.2.1⟩

/-- C7 witness: the count facts instantiated at the all-zero stream,
with the membership hypotheses of the row-count conjuncts discharged
on the dataset's first column. -/
theorem end_to_end_counts_witness :
    (completeParts "PATIENT_0001" 72 5 (fun _ => 0) 0
      zeroStream).abg.pH.length = 18
    ∧ getCol (generate_batch_dataset zeroStream (fun _ => 0)
        (fun _ => 0) 3 72).1 "patient_id" =
      some ((List.replicate 864 (Cell.str "PATIENT_0001") ++
        List.replicate 864 (Cell.str "PATIENT_0002")) ++
        List.replicate 864 (Cell.str "PATIENT_0003")) :=
  ⟨(end_to_end_counts "PATIENT_0001" (fun _ => 0) 0 zeroStream
      zeroStream (fun _ => 0)).2.1,
   (end_to_end_counts "PATIENT_0001" (fun _ => 0) 0 zeroStream
      zeroStream (fun _ => 0)).2.2.2.2.1⟩
